import Mathlib

/-!
Shallow embedding of the orchestration/compositing core of the Veo director
application (source: src/unnamed/part_000, the current snapshot, and
src/App.tsx, an older snapshot kept in the repository).

The embedding translates the TypeScript data model and the pure decision
logic of the source into executable Lean definitions:
* JS numbers used for scales/offsets/delays are modelled as rationals;
* 8-bit pixel channels are modelled as naturals;
* the JS falsy test on optional strings (undefined or empty string) is
  modelled by `truthyStr`; `a || b` on strings is `strOr`, `a ?? b` on
  numbers is `Option.getD` / `qOr`;
* canvas rasterization, network calls and timers are external effects: the
  driver consumes oracles (`SubmitStep`, `PollStep`, ...) describing the
  outcome of each awaited operation, and the canvas re-encode is modelled
  by a `CompositeResult` value that records whether the background was
  returned unchanged or a fresh jpeg was encoded.
-/

namespace VeoDirector

/-- `GenerationStatus` from the source type declarations (part_000 line 56). -/
inductive GenerationStatus where
  | idle
  | queued
  | generating
  | polling
  | downloading
  | completed
  | error
deriving DecidableEq, Repr

/-- The chroma-key selector, source union type `'none' | 'white' | 'green'`
(part_000 line 72).  The constructor for the string `'none'` is named
`keyNone` to avoid clashing with `Option.none`. -/
inductive ChromaKey where
  | keyNone
  | white
  | green
deriving DecidableEq, Repr

/-- `CompositionState` from part_000 lines 64-73; every field is optional
in the source interface. -/
structure CompositionState where
  background_asset : Option String := none
  character_asset : Option String := none
  character_scale : Option ℚ := none
  character_x : Option ℚ := none
  character_y : Option ℚ := none
  background_x : Option ℚ := none
  background_y : Option ℚ := none
  chroma_key : Option ChromaKey := none
deriving DecidableEq, Repr

/-- `GeneratedAsset` from part_000 lines 81-87. -/
structure GeneratedAsset where
  id : String
  type : String
  url : String
  timestamp : ℕ
  prompt : Option String := none
deriving DecidableEq, Repr

/-- The three prompt fields of a cut (part_000 lines 58-62). -/
structure Prompts where
  global_anchor : String := ""
  start_state : String := ""
  action_prompt : String := ""
deriving DecidableEq, Repr

/-- `Cut` from part_000 lines 89-101. -/
structure Cut where
  cut_id : String
  time_code : String := ""
  prompts : Prompts := {}
  status : GenerationStatus := .idle
  videoUrl : Option String := none
  error : Option String := none
  progress : Option ℕ := none
  statusMessage : Option String := none
  startTime : Option ℕ := none
  composition : Option CompositionState := none
  history : List GeneratedAsset := []
deriving DecidableEq, Repr

/-- The mutable state the job driver acts on: the flattened list of cuts of
the project (`projectRef.current.scenes.flatMap(s => s.cuts)`) together with
the per-cut lock registry `generatingLocks` (part_000 line 297, a JS `Set`). -/
structure AppState where
  cuts : List Cut
  locks : Finset String := ∅
deriving DecidableEq

/-- JS truthiness of an optional string: `undefined` and `""` are falsy. -/
def truthyStr : Option String → Bool
  | some s => s ≠ ""
  | none => false

/-- JS `a || b` on optional strings: returns `a` when truthy, else `b`. -/
def strOr (a b : Option String) : Option String :=
  if truthyStr a then a else b

/-- JS `a ?? b ?? d` on optional numbers: first defined value, else `d`. -/
def qOr (a b : Option ℚ) (d : ℚ) : ℚ :=
  ((a.orElse (fun _ => b)).getD d)

/-- `Math.round` of JS for a non-negative rational: floor of `q + 1/2`. -/
def jsRound (q : ℚ) : ℤ :=
  ⌊q + 1 / 2⌋

/-- Substring search on character lists (structural, kernel-evaluable). -/
def hasSubstrChars (pat : List Char) : List Char → Bool
  | [] => pat.isEmpty
  | c :: rest => pat.isPrefixOf (c :: rest) || hasSubstrChars pat rest

/-- Substring test, modelling `String.prototype.includes`. -/
def hasSubstr (s pat : String) : Bool :=
  hasSubstrChars pat.data s.data

/-- Find a cut by id: `cuts.find(c => c.cut_id === cutId)`. -/
def findCut (cuts : List Cut) (cutId : String) : Option Cut :=
  cuts.find? (fun c => c.cut_id == cutId)

/-- Targeted update of the cut with the given id, leaving every other cut
untouched; this is the per-cut field-scoped merge performed by
`updateCutState` (part_000 lines 350-367), specialised to the concrete
update of each call site. -/
def updCut (cuts : List Cut) (cutId : String) (f : Cut → Cut) : List Cut :=
  cuts.map (fun c => if c.cut_id == cutId then f c else c)

/-! ## Chroma-Key Processor -/

/-- One RGBA pixel with 8-bit channels, an entry of the canvas `ImageData`. -/
structure Pixel where
  r : ℕ
  g : ℕ
  b : ℕ
  a : ℕ
deriving DecidableEq, Repr

/-- The export-quality chroma-key step applied per pixel inside
`createCompositeImage` (part_000 lines 514-518):
`if (chroma === 'white' && r>240 && g>240 && b>240) d[i+3]=0;`
`if (chroma === 'green' && g>100 && g>r+40 && g>b+40) d[i+3]=0;`
Only the alpha byte is ever written. -/
def applyChromaExportPixel (key : ChromaKey) (p : Pixel) : Pixel :=
  match key with
  | .keyNone => p
  | .white => if p.r > 240 ∧ p.g > 240 ∧ p.b > 240 then { p with a := 0 } else p
  | .green => if p.g > 100 ∧ p.g > p.r + 40 ∧ p.g > p.b + 40 then { p with a := 0 } else p

/-- The live-preview chroma-key variant of the older snapshot
(src/App.tsx lines 330-346); its green rule omits the `g > 100`
brightness floor: `if (g > r + 40 && g > b + 40) data[i+3] = 0;`. -/
def applyChromaPreviewPixelApp (key : ChromaKey) (p : Pixel) : Pixel :=
  match key with
  | .keyNone => p
  | .white => if p.r > 240 ∧ p.g > 240 ∧ p.b > 240 then { p with a := 0 } else p
  | .green => if p.g > p.r + 40 ∧ p.g > p.b + 40 then { p with a := 0 } else p

/-- The export chroma-key pass over a whole pixel buffer. -/
def applyChromaExport (key : ChromaKey) (pixels : List Pixel) : List Pixel :=
  pixels.map (applyChromaExportPixel key)

/-! ## Compositing Engine

`createCompositeImage` (part_000 lines 444-534).  The per-field resolution
of composition values against the project-level globals (lines 457-467) is
split into named resolvers so the precedence rule can be stated about the
exact read sites.  The canvas drawing itself is an external effect; the
general path is recorded as an `encoded` result carrying the resolved
drawing parameters, while the fast path returns the background reference
`raw`, i.e. without re-encoding. -/

/-- Target aspect ratio of the seed frame, source union `'16:9' | '1:1'`. -/
inductive Aspect where
  | sixteenNine
  | oneOne
deriving DecidableEq, Repr

/-- Line 457: `const bg = composition?.background_asset || globalBg;`. -/
def resolveBgAsset (comp : Option CompositionState) (globalBg : Option String) : Option String :=
  strOr (comp.bind (fun c => c.background_asset)) globalBg

/-- Line 458: `const char = composition?.character_asset || globalChar;`. -/
def resolveCharAsset (comp : Option CompositionState) (globalChar : Option String) : Option String :=
  strOr (comp.bind (fun c => c.character_asset)) globalChar

/-- Line 460: `const scale = composition?.character_scale ?? globalScale ?? 1;`. -/
def resolveCharScale (comp : Option CompositionState) (globalScale : Option ℚ) : ℚ :=
  qOr (comp.bind (fun c => c.character_scale)) globalScale 1

/-- Line 461: `const chroma = composition?.chroma_key || globalChroma || 'none';`
(all three chroma strings are truthy, so `||` selects the first defined). -/
def resolveChroma (comp : Option CompositionState) (globalChroma : Option ChromaKey) : ChromaKey :=
  (((comp.bind (fun c => c.chroma_key)).orElse (fun _ => globalChroma)).getD .keyNone)

/-- Line 462: `const posX = composition?.character_x ?? globalX ?? 0;`. -/
def resolveCharX (comp : Option CompositionState) (globalX : Option ℚ) : ℚ :=
  qOr (comp.bind (fun c => c.character_x)) globalX 0

/-- Line 463: `const posY = composition?.character_y ?? globalY ?? 0;`. -/
def resolveCharY (comp : Option CompositionState) (globalY : Option ℚ) : ℚ :=
  qOr (comp.bind (fun c => c.character_y)) globalY 0

/-- Line 465: `const bgScale = globalBgScale ?? 1;` — no per-cut field exists. -/
def resolveBgScale (globalBgScale : Option ℚ) : ℚ :=
  globalBgScale.getD 1

/-- Line 466: `const bgPosX = composition?.background_x ?? globalBgX ?? 0;`. -/
def resolveBgX (comp : Option CompositionState) (globalBgX : Option ℚ) : ℚ :=
  qOr (comp.bind (fun c => c.background_x)) globalBgX 0

/-- Line 467: `const bgPosY = composition?.background_y ?? globalBgY ?? 0;`. -/
def resolveBgY (comp : Option CompositionState) (globalBgY : Option ℚ) : ℚ :=
  qOr (comp.bind (fun c => c.background_y)) globalBgY 0

/-- The foreground layer parameters resolved for the general drawing path
(lines 490-524); the on-canvas pixel geometry additionally depends on the
decoded image dimensions, which are external to the model. -/
structure CharLayer where
  src : String
  scale : ℚ
  posX : ℚ
  posY : ℚ
  chroma : ChromaKey
deriving DecidableEq, Repr

/-- The resolved drawing parameters of the general compositing path
(canvas size from lines 474-475, background draw from lines 482-488). -/
structure CompositeParams where
  canvasW : ℕ
  canvasH : ℕ
  bg : String
  bgScale : ℚ
  bgPosX : ℚ
  bgPosY : ℚ
  charLayer : Option CharLayer
deriving DecidableEq, Repr

/-- Outcome of `createCompositeImage`: the fast path returns the background
reference unchanged (`raw`, line 469), a missing background yields the empty
string (`empty`, line 470), and the general path re-encodes the canvas as a
jpeg data URL (`encoded`, lines 525/529). -/
inductive CompositeResult where
  | raw (bg : String)
  | empty
  | encoded (params : CompositeParams)
deriving DecidableEq, Repr

/-- `createCompositeImage` of the current snapshot (part_000 lines 444-534),
up to the externally-performed rasterization. -/
def createCompositeImage (comp : Option CompositionState)
    (globalBg globalChar : Option String)
    (globalScale globalX globalY : Option ℚ)
    (globalChroma : Option ChromaKey)
    (globalBgScale globalBgX globalBgY : Option ℚ)
    (aspect : Aspect) : CompositeResult :=
  let bg := resolveBgAsset comp globalBg
  let char := resolveCharAsset comp globalChar
  let scale := resolveCharScale comp globalScale
  let chroma := resolveChroma comp globalChroma
  let posX := resolveCharX comp globalX
  let posY := resolveCharY comp globalY
  let bgScale := resolveBgScale globalBgScale
  let bgPosX := resolveBgX comp globalBgX
  let bgPosY := resolveBgY comp globalBgY
  if truthyStr char = false ∧ truthyStr bg = true ∧ bgScale = 1 ∧ bgPosX = 0 ∧
      bgPosY = 0 ∧ aspect = .sixteenNine then
    .raw (bg.getD "")
  else if truthyStr bg = false then
    .empty
  else
    .encoded
      { canvasW := if aspect = .sixteenNine then 1920 else 1080
        canvasH := 1080
        bg := bg.getD ""
        bgScale := bgScale
        bgPosX := bgPosX
        bgPosY := bgPosY
        charLayer :=
          if truthyStr char then
            some { src := char.getD "", scale := scale, posX := posX, posY := posY,
                   chroma := chroma }
          else none }

/-- The data URL produced by `createCompositeImage`: the fast path hands the
background bytes through unchanged, the missing-background path is `''`, and
the general path is a fresh `canvas.toDataURL('image/jpeg', 0.95)` encode
whose jpeg payload is abstracted by a fixed marker (no claim inspects it). -/
def urlOf : CompositeResult → String
  | .raw s => s
  | .empty => ""
  | .encoded _ => "data:image/jpeg;base64,composite"

/-- Splits a character list at the first occurrence of the pattern. -/
def splitFirst (pat : List Char) : List Char → Option (List Char × List Char)
  | [] => none
  | c :: rest =>
    if pat.isPrefixOf (c :: rest) then some ([], (c :: rest).drop pat.length)
    else
      match splitFirst pat rest with
      | some (pre, post) => some (c :: pre, post)
      | none => none

/-- The driver-side match `compDataUrl.match(/^data:(.+);base64,(.+)$/)`
(part_000 lines 589-592) extracting mime type and base64 payload (modelled
up to the greediness of the mime group, irrelevant for real data URLs). -/
def dataUrlMatch (s : String) : Option (String × String) :=
  if ("data:".data).isPrefixOf s.data then
    match splitFirst (";base64,".data) (s.data.drop 5) with
    | some (mime, rest) =>
      if mime ≠ [] ∧ rest ≠ [] then some (String.mk mime, String.mk rest) else none
    | none => none
  else none

/-! ## Live chroma-key preview resolution (part_000 lines 384-396)

The debounced preview effect reads its inputs as
`targetChar = activeCut?.composition?.character_asset || project.global_character_image`
and
`targetChroma = activeCut?.composition?.character_asset ?
  (activeCut?.composition?.chroma_key || 'none') : (project.global_chroma_key || 'none')`. -/

/-- The character image the live preview processes. -/
def previewTargetChar (comp : Option CompositionState) (globalChar : Option String) : Option String :=
  strOr (comp.bind (fun c => c.character_asset)) globalChar

/-- The chroma key the live preview applies: it follows the *source of the
character asset* rather than the per-field precedence rule. -/
def previewTargetChroma (comp : Option CompositionState) (globalChroma : Option ChromaKey) : ChromaKey :=
  if truthyStr (comp.bind (fun c => c.character_asset)) then
    ((comp.bind (fun c => c.chroma_key)).getD .keyNone)
  else
    (globalChroma.getD .keyNone)

/-! ## Generation Job Driver (`generateCutVideo`, part_000 lines 551-730)

The driver is a sequential async function; its awaited operations (network
submit, poll, download, frame extraction) are external, so each run consumes
an oracle (`DriverInput`) describing the outcome of every awaited step.  The
canonical state is re-read at every suspension point; an external cancel
request (the header button handler, part_000 line 1023) may fire before any
such re-read, which the oracle records as a `cancelBefore` flag. -/

/-- `MAX_POLL_TIME = 300000` (part_000 line 144), the 5 minute poll deadline. -/
def MAX_POLL_TIME : ℕ := 300000

/-- The external cancel handler (part_000 line 1023):
`updateCutState(cutId, { status: 'idle', error: 'Cancelled by user' });`
`generatingLocks.current.delete(cutId);`. -/
def cancelCut (s : AppState) (cutId : String) : AppState :=
  { cuts := updCut s.cuts cutId
      (fun c => { c with status := .idle, error := some "Cancelled by user" })
    locks := s.locks.erase cutId }

/-- `currentCut?.status === 'idle'` on a freshly re-read cut. -/
def statusIsIdle (o : Option Cut) : Bool :=
  match o with
  | some c => c.status == .idle
  | none => false

/-- Sets only the `statusMessage` field of a cut. -/
def setStatusMessage (s : AppState) (cutId m : String) : AppState :=
  { s with cuts := updCut s.cuts cutId (fun c => { c with statusMessage := some m }) }

/-- The submission backoff (part_000 line 656):
`const delay = Math.min(60000, 5000 * Math.pow(1.5, genRetries));`
in milliseconds, for retry number `n ≥ 1`. -/
def submitDelay (n : ℕ) : ℚ :=
  min 60000 (5000 * (3 / 2) ^ n)

/-- The terminal quota message thrown at the retry ceiling (part_000 line 654). -/
def quotaMsg : String :=
  "⛔ DAILY QUOTA EXCEEDED (10/day). Please switch to Test Mode."

/-- The poll-deadline message thrown at line 674. -/
def timeoutMsg : String :=
  "⏱️ Generation Timed Out (Server stuck). Please try again."

/-- The waiting status message written while backing off (part_000 line 657). -/
def waitMsg (d : ℚ) : String :=
  "⏳ Quota Full. Waiting... (" ++ toString (jsRound (d / 1000)) ++ "s)"

/-- Outcome of one `ai.models.generateVideos(payload)` attempt; whether an
exception is retryable is `isRetryableError` (part_000 lines 148-152). -/
inductive SubmitOutcome where
  | accepted
  | retryable
  | fatal (msg : String)
deriving DecidableEq, Repr

/-- Oracle for one iteration of the submission loop: whether the external
cancel handler fired before this iteration re-reads the canonical state, and
the outcome of the submit attempt. -/
structure SubmitStep where
  cancelBefore : Bool := false
  outcome : SubmitOutcome := .accepted
deriving DecidableEq, Repr

/-- How a loop phase of the driver ends.  `fuelOut` marks a run whose oracle
list ended while the source loop would still be iterating: the driver has not
exited there, so no exit path (and no `finally`) has run yet. -/
inductive SubmitResult where
  | accepted (s : AppState)
  | thrown (s : AppState) (msg : String)
  | cancelled (s : AppState)
  | fuelOut (s : AppState)
deriving DecidableEq

/-- The submission retry loop (part_000 lines 639-663).  Each iteration
re-reads the canonical cut and returns (deleting the lock) if it is idle;
a retryable failure increments `genRetries`, throws the quota message once
`genRetries >= 8`, and otherwise writes the computed wait into
`statusMessage` and retries after `submitDelay`. -/
def submitLoop (cutId : String) : AppState → ℕ → List SubmitStep → SubmitResult
  | s, _, [] => .fuelOut s
  | s, retries, step :: rest =>
    let s1 := if step.cancelBefore then cancelCut s cutId else s
    if statusIsIdle (findCut s1.cuts cutId) then
      .cancelled { s1 with locks := s1.locks.erase cutId }
    else
      match step.outcome with
      | .accepted => .accepted s1
      | .fatal msg => .thrown s1 msg
      | .retryable =>
        let r := retries + 1
        if r ≥ 8 then
          .thrown s1 quotaMsg
        else
          submitLoop cutId (setStatusMessage s1 cutId (waitMsg (submitDelay r))) r rest

/-- Outcome of one `ai.operations.getVideosOperation` call inside the poll
loop (part_000 lines 678-689). -/
inductive PollFetch where
  | ok (done : Bool)
  | retryable
  | fatal (msg : String)
deriving DecidableEq, Repr

/-- Oracle for one iteration of the poll loop: cancellation before the
re-read, the wall-clock `Date.now() - pollStartTime` observed at the deadline
check, and the outcome of the fetch. -/
structure PollStep where
  cancelBefore : Bool := false
  elapsed : ℕ := 0
  fetch : PollFetch := .ok true
deriving DecidableEq, Repr

/-- Result of the poll loop; see `SubmitResult` for `fuelOut`. -/
inductive PollResult where
  | finished (s : AppState)
  | thrown (s : AppState) (msg : String)
  | cancelled (s : AppState)
  | fuelOut (s : AppState)
deriving DecidableEq

/-- `freshCut?.progress || 20` — JS `||` treats 0 as falsy (line 684). -/
def progressOr20 : Option ℕ → ℕ
  | some 0 => 20
  | some n => n
  | none => 20

/-- The heuristic progress increment: `qualityMode ? 5 : 10` (line 685). -/
def pollInc (quality : Bool) : ℕ :=
  if quality then 5 else 10

/-- `const pollInterval = qualityMode ? 5000 : 1500;` (line 666). -/
def pollIntervalMs (quality : Bool) : ℕ :=
  if quality then 5000 else 1500

/-- The poll loop (part_000 lines 669-690): while the operation is not done,
re-read the canonical cut and return without error if it is idle; throw the
timeout message once the elapsed wall-clock time exceeds `MAX_POLL_TIME`;
then fetch the operation, bumping `progress` towards the 95 cap on success,
pausing and retrying in place on a retryable error, and throwing otherwise. -/
def pollLoop (quality : Bool) (cutId : String) : AppState → Bool → List PollStep → PollResult
  | s, true, _ => .finished s
  | s, false, [] => .fuelOut s
  | s, false, step :: rest =>
    let s1 := if step.cancelBefore then cancelCut s cutId else s
    if statusIsIdle (findCut s1.cuts cutId) then
      .cancelled { s1 with locks := s1.locks.erase cutId }
    else if step.elapsed > MAX_POLL_TIME then
      .thrown s1 timeoutMsg
    else
      match step.fetch with
      | .fatal msg => .thrown s1 msg
      | .retryable => pollLoop quality cutId s1 false rest
      | .ok done2 =>
        let s2 := { s1 with cuts := updCut s1.cuts cutId (fun c =>
          { c with progress := some (min 95 (progressOr20 c.progress + pollInc quality)) }) }
        pollLoop quality cutId s2 done2 rest

/-- The produced video as seen by `extractLastFrameFromVideo`: whether it
loads, whether a 2d canvas context is available, its duration in seconds,
and the rasterized frame at each time position. -/
structure VideoModel where
  loadOk : Bool := true
  canvasOk : Bool := true
  duration : ℚ := 0
  frameAt : ℚ → String := fun _ => ""

/-- `extractLastFrameFromVideo` (part_000 lines 154-180): seeks to
`Math.max(0, video.duration - 0.1)` and rasterizes that frame; a load
failure rejects with `"Video load error"`, a missing 2d context with
`"Canvas error"`. -/
def extractLastFrameFromVideo (v : VideoModel) : Except String String :=
  if v.loadOk = false then .error "Video load error"
  else if v.canvasOk = false then .error "Canvas error"
  else .ok (v.frameAt (max 0 (v.duration - 1 / 10)))

/-- The auto-link write (part_000 lines 703-707): find the completed cut in
the flattened order, and if a next cut exists, merge
`{ composition: { ...next.composition, background_asset: frame } }` into it.
The spread of the freshly read composition followed by the `updateCutState`
composition merge nets to overriding only `background_asset`. -/
def linkComposition (c : Cut) (frame : String) : CompositionState :=
  { (c.composition.getD {}) with background_asset := some frame }

def autoLinkApply (cuts : List Cut) (cutId frame : String) : List Cut :=
  match cuts.findIdx? (fun c => c.cut_id == cutId) with
  | none => cuts
  | some k =>
    if h : k + 1 < cuts.length then
      let next := cuts.get ⟨k + 1, h⟩
      updCut cuts next.cut_id (fun c => { c with composition := some (linkComposition c frame) })
    else cuts

/-- `addToHistory` (part_000 lines 375-381): prepend the asset to the cut's
history log. -/
def addToHistory (cuts : List Cut) (cutId : String) (asset : GeneratedAsset) : List Cut :=
  updCut cuts cutId (fun c => { c with history := asset :: c.history })

/-- Mode flags and project-level composition globals the driver reads. -/
structure Env where
  isTestMode : Bool := false
  isAutoLinkMode : Bool := false
  qualityMode : Bool := false
  strictMode : Bool := true
  aspect : Aspect := .sixteenNine
  global_image : Option String := none
  global_character_image : Option String := none
  global_character_scale : Option ℚ := none
  global_character_x : Option ℚ := none
  global_character_y : Option ℚ := none
  global_chroma_key : Option ChromaKey := none
  global_bg_scale : Option ℚ := none
  global_bg_x : Option ℚ := none
  global_bg_y : Option ℚ := none

/-- The composite call of the driver (part_000 lines 572-584), which passes
each optional numeric global with an explicit `?? default`. -/
def composeFor (env : Env) (c : Cut) : CompositeResult :=
  createCompositeImage c.composition env.global_image env.global_character_image
    (some (env.global_character_scale.getD 1))
    (some (env.global_character_x.getD 0))
    (some (env.global_character_y.getD 0))
    (some (env.global_chroma_key.getD .keyNone))
    (some (env.global_bg_scale.getD 1))
    (some (env.global_bg_x.getD 0))
    (some (env.global_bg_y.getD 0))
    env.aspect

/-- The seed image the driver attaches to the request: the regex match on
the composite data URL (lines 589-592). -/
def driverSeed (r : CompositeResult) : Option (String × String) :=
  dataUrlMatch (urlOf r)

/-- Abbreviation of the strict-consistency prompt suffix appended at
part_000 line 621 (the prompt text is data the claims never inspect). -/
def strictSuffix : String :=
  " VISUAL CONSISTENCY: keep the character appearance, background details, lighting and camera angle of the provided start frame."

/-- The green-screen prompt suffix appended at part_000 line 624. -/
def greenSuffix : String :=
  " IMPORTANT: Keep the background strictly SOLID NEON GREEN for chroma keying."

/-- The prompt assembly (part_000 lines 616-625). -/
def buildPrompt (env : Env) (c : Cut) (seedPresent : Bool) : String :=
  let base := if c.prompts.action_prompt ≠ "" then c.prompts.action_prompt else "A cinematic scene."
  let p1 := if seedPresent then "Action starts from the provided reference frame: " ++ base else base
  let p2 := if env.strictMode ∧ seedPresent then p1 ++ strictSuffix else p1
  if (c.composition.bind (fun comp => comp.chroma_key)) = some .green ∨
      env.global_chroma_key = some .green then
    p2 ++ greenSuffix
  else p2

/-- The request payload (part_000 lines 627-634). -/
structure Payload where
  modelName : String
  prompt : String
  seed : Option (String × String)
  aspect : Aspect
deriving DecidableEq, Repr

/-- Builds the `generateVideos` payload; the seed image is attached only
when the composite produced a data URL (lines 632-634). -/
def buildPayload (env : Env) (c : Cut) (r : CompositeResult) : Payload :=
  { modelName := if env.qualityMode then "veo-3.1-generate-preview" else "veo-3.1-fast-generate-preview"
    prompt := buildPrompt env c (driverSeed r).isSome
    seed := driverSeed r
    aspect := env.aspect }

/-- The oracle of one driver run: timestamps, cancellation observations, and
the outcome of every awaited external operation. -/
structure DriverInput where
  nowStart : ℕ := 0
  cancelAfterComposite : Bool := false
  submits : List SubmitStep := []
  initialDone : Bool := false
  polls : List PollStep := []
  videoUri : Option String := none
  downloadOk : Bool := true
  blobUrl : String := ""
  video : VideoModel := {}
  assetId : String := ""
  assetTime : ℕ := 0

/-- How a `generateCutVideo` run ends.  `noOp` is the immediate return when
the lock is already held (line 552); `fuelOut` again marks an unfinished
run (the oracle ended mid-loop), on which the source `finally` has not run. -/
inductive DriverExit where
  | noOp
  | missingCut
  | cancelled
  | completed
  | errored (msg : String)
  | fuelOut
deriving DecidableEq, Repr

/-- The message stored by the catch clause (part_000 lines 718-726): the
quota branch keeps `error.message`, the general branch falls back to
`'Gen Error'` for an empty message. -/
def catchMsg (msg : String) : String :=
  if hasSubstr msg "DAILY QUOTA" then msg
  else if msg = "" then "Gen Error" else msg

/-- The catch clause: mark the cut as a terminal `Error` with the message. -/
def applyCatch (s : AppState) (cutId msg : String) : AppState :=
  { s with cuts := updCut s.cuts cutId (fun c =>
      { c with status := .error, error := some (catchMsg msg) }) }

/-- The first canonical write of an attempt (part_000 lines 563-566):
`status: 'generating', error: undefined, progress: 5, startTime: Date.now(),`
`statusMessage: "🎨 Compositing Assets..."`. -/
def startAttempt (s : AppState) (cutId : String) (now : ℕ) : AppState :=
  { s with cuts := updCut s.cuts cutId (fun c =>
      { c with status := .generating, error := none, progress := some 5,
               startTime := some now,
               statusMessage := some "🎨 Compositing Assets..." }) }

/-- The 1x1 png placeholder of the test-mode branch (part_000 line 600). -/
def testModePlaceholder : String :=
  "data:image/png;base64,iVBORw0KGgoAAAANSUhEUgAAAAEAAAABCAQAAAC1HAwCAAAAC0lEQVR42mNk+A8AAQUBAScY42YAAAAASUVORK5CYII="

/-- The completion phase of the driver (part_000 lines 692-716): read the
artifact locator, download the binary, run the auto-link side effect (a
failed frame extraction is logged and swallowed, lines 700-710), append the
`GeneratedAsset` to history (line 711) and mark the cut completed
(line 712); a missing locator or a failed download throws. -/
def completionPhase (env : Env) (i : DriverInput) (freshCut : Cut)
    (comp : CompositeResult) (cutId : String) (s6 : AppState) :
    AppState × DriverExit :=
  match i.videoUri with
  | none => (applyCatch s6 cutId "No video URI", .errored (catchMsg "No video URI"))
  | some _ =>
    let s7 := setStatusMessage s6 cutId "⬇️ Downloading Video..."
    if i.downloadOk = false then
      (applyCatch s7 cutId "Download failed", .errored (catchMsg "Download failed"))
    else
      let s8 := if env.isAutoLinkMode then
          match extractLastFrameFromVideo i.video with
          | .error _ => s7
          | .ok frame => { s7 with cuts := autoLinkApply s7.cuts cutId frame }
        else s7
      let newAsset : GeneratedAsset :=
        { id := i.assetId, type := "video", url := i.blobUrl,
          timestamp := i.assetTime,
          prompt := some (buildPrompt env freshCut (driverSeed comp).isSome) }
      let s9 := { s8 with cuts := addToHistory s8.cuts cutId newAsset }
      let s10 := { s9 with cuts := updCut s9.cuts cutId (fun c =>
        { c with status := .completed, videoUrl := some i.blobUrl,
                 progress := some 100, statusMessage := some "Completed" }) }
      (s10, .completed)

/-- The polling phase of the driver (part_000 lines 665-690): mark the cut
`polling` with progress 20, then run the poll loop. -/
def pollPhase (env : Env) (i : DriverInput) (freshCut : Cut)
    (comp : CompositeResult) (cutId : String) (s4 : AppState) :
    AppState × DriverExit :=
  let s5 := { s4 with cuts := updCut s4.cuts cutId (fun c =>
    { c with status := .polling, progress := some 20,
             statusMessage := some "☁️ Processing on Google Cloud..." }) }
  match pollLoop env.qualityMode cutId s5 i.initialDone i.polls with
  | .cancelled s6 => (s6, .cancelled)
  | .thrown s6 msg => (applyCatch s6 cutId msg, .errored (catchMsg msg))
  | .fuelOut s6 => (s6, .fuelOut)
  | .finished s6 => completionPhase env i freshCut comp cutId s6

/-- The submission phase of the driver (part_000 lines 636-663): write the
sending status message, then run the submission retry loop. -/
def submitPhase (env : Env) (i : DriverInput) (freshCut : Cut)
    (comp : CompositeResult) (cutId : String) (s2 : AppState) :
    AppState × DriverExit :=
  let s3 := setStatusMessage s2 cutId "🚀 Sending to Veo Cloud..."
  match submitLoop cutId s3 0 i.submits with
  | .cancelled s4 => (s4, .cancelled)
  | .thrown s4 msg => (applyCatch s4 cutId msg, .errored (catchMsg msg))
  | .fuelOut s4 => (s4, .fuelOut)
  | .accepted s4 => pollPhase env i freshCut comp cutId s4

/-- The test-mode branch (part_000 lines 595-614): simulate a completion
with the composite itself (or a placeholder png) as artifact, append a
history entry, auto-link the next cut directly with the mock result, delete
the lock and return. -/
def testModePhase (env : Env) (i : DriverInput) (comp : CompositeResult)
    (cutId : String) (s2 : AppState) : AppState × DriverExit :=
  let mock := if urlOf comp ≠ "" then urlOf comp else testModePlaceholder
  let s3 := { s2 with cuts := updCut s2.cuts cutId (fun c =>
    { c with status := .completed, videoUrl := some mock, progress := some 100,
             statusMessage := some "Completed (Test Mode)" }) }
  let mockAsset : GeneratedAsset :=
    { id := i.assetId, type := "image", url := mock, timestamp := i.assetTime,
      prompt := some "TEST MODE" }
  let s4 := { s3 with cuts := addToHistory s3.cuts cutId mockAsset }
  let s5 := if env.isAutoLinkMode then
      { s4 with cuts := autoLinkApply s4.cuts cutId mock }
    else s4
  ({ s5 with locks := s5.locks.erase cutId }, .completed)

/-- The body of the `try` block of `generateCutVideo` (part_000 lines
555-716), entered with the lock already inserted.  Exit paths that delete
the lock themselves before returning (the cancellation checks and the
test-mode return) do so here as in the source; the enclosing `finally` is
applied by `generateCutVideo`. -/
def driverBody (env : Env) (i : DriverInput) (s : AppState) (cutId : String) :
    AppState × DriverExit :=
  match findCut s.cuts cutId with
  | none => (s, .missingCut)
  | some cut0 =>
    let s1 := startAttempt s cutId i.nowStart
    let comp := composeFor env cut0
    let s2 := if i.cancelAfterComposite then cancelCut s1 cutId else s1
    if statusIsIdle (findCut s2.cuts cutId) then
      ({ s2 with locks := s2.locks.erase cutId }, .cancelled)
    else if env.isTestMode then
      testModePhase env i comp cutId s2
    else
      match findCut s2.cuts cutId with
      | none => (s2, .missingCut)
      | some freshCut => submitPhase env i freshCut comp cutId s2

/-- `generateCutVideo` (part_000 lines 551-730): the immediate no-op return
when the lock registry already holds the cut id, the lock acquisition, the
`try` body, and the `finally` clause that deletes the lock on every exit of
the driver (a `fuelOut` run has not exited, so `finally` has not run yet). -/
def generateCutVideo (env : Env) (i : DriverInput) (s : AppState) (cutId : String) :
    AppState × DriverExit :=
  if cutId ∈ s.locks then (s, .noOp)
  else
    let r := driverBody env i { s with locks := insert cutId s.locks } cutId
    if r.2 = .fuelOut then r
    else ({ r.1 with locks := r.1.locks.erase cutId }, r.2)

/-! ## Batch Scheduler (`generateBatch`, part_000 lines 732-776)

The scheduler keeps a FIFO `queue` and a bounded set `activePromises` of
in-flight drivers; an abstract event trace interleaves its refill steps with
the canonical writes of the in-flight drivers:
* `start` is one iteration of the inner refill loop (lines 751-766), guarded
  by a spare slot and a non-empty queue: a cut whose *snapshot* status is
  `completed` is skipped and counted as done immediately (lines 754-757),
  any other cut's driver is launched, whose first canonical write marks it
  `generating` with progress 5;
* `tick` is a canonical status write made by an in-flight driver (the
  driver only writes running statuses while in flight);
* `finish` is the resolution of a driver promise: the `.then` continuation
  (lines 759-764) increments the completed count and removes the promise
  from the active set, the driver having left the cut in a terminal status;
* `cancel` is the external cancel handler, `abort` the shared abort signal
  that stops new dequeues. -/

/-- `'safe' | 'fast'` batch pacing (part_000 line 262). -/
inductive BatchSpeed where
  | safe
  | fast
deriving DecidableEq, Repr

/-- Part_000 line 741:
`const CONCURRENCY = (isAutoLinkMode || batchModeSpeed === 'safe') ? 1 : 2;`. -/
def concurrencyLimit (autoLink : Bool) (speed : BatchSpeed) : ℕ :=
  if autoLink = true ∨ speed = .safe then 1 else 2

/-- The in-flight statuses of a cut being driven. -/
def runningStatus : GenerationStatus → Bool
  | .generating => true
  | .polling => true
  | .downloading => true
  | _ => false

/-- Scheduler state: pending queue of cut snapshots, canonical cut list,
ids of in-flight drivers, aggregate completed count, abort flag. -/
structure SchedState where
  queue : List Cut
  cuts : List Cut
  active : Finset String := ∅
  completedCount : ℕ := 0
  aborted : Bool := false
deriving DecidableEq

/-- One interleaving event of a batch run. -/
inductive BatchEvent where
  | start
  | tick (id : String) (st : GenerationStatus)
  | finish (id : String) (st : GenerationStatus)
  | cancel (id : String)
  | abort
deriving DecidableEq, Repr

/-- One scheduler transition; events whose source-side guard does not hold
leave the state unchanged. -/
def schedStep (cLimit : ℕ) (s : SchedState) : BatchEvent → SchedState
  | .start =>
    if s.aborted = true then s
    else
      match s.queue with
      | [] => s
      | cut :: rest =>
        if s.active.card < cLimit then
          if cut.status = .completed then
            { s with queue := rest, completedCount := s.completedCount + 1 }
          else
            { s with queue := rest, active := insert cut.cut_id s.active,
                     cuts := updCut s.cuts cut.cut_id (fun c =>
                       { c with status := .generating, progress := some 5 }) }
        else s
  | .tick id st =>
    if id ∈ s.active ∧ runningStatus st = true then
      { s with cuts := updCut s.cuts id (fun c => { c with status := st }) }
    else s
  | .finish id st =>
    if id ∈ s.active ∧ runningStatus st = false then
      { s with active := s.active.erase id, completedCount := s.completedCount + 1,
               cuts := updCut s.cuts id (fun c => { c with status := st }) }
    else s
  | .cancel id =>
    { s with cuts := updCut s.cuts id (fun c =>
        { c with status := .idle, error := some "Cancelled by user" }) }
  | .abort => { s with aborted := true }

/-- Runs a batch event trace. -/
def schedExec (cLimit : ℕ) (s : SchedState) : List BatchEvent → SchedState
  | [] => s
  | e :: es => schedExec cLimit (schedStep cLimit s e) es

/-- The number of cuts simultaneously in a running status. -/
def runningCount (s : SchedState) : ℕ :=
  (s.cuts.filter (fun c => runningStatus c.status)).length

/-! ## Observers used by the statements -/

/-- The canonical status of a cut, when it exists. -/
def cutStatus (s : AppState) (cutId : String) : Option GenerationStatus :=
  (findCut s.cuts cutId).map (fun c => c.status)

/-- The canonical error message of a cut, when the cut exists. -/
def cutError (s : AppState) (cutId : String) : Option (Option String) :=
  (findCut s.cuts cutId).map (fun c => c.error)

/-- The canonical progress of a cut, when the cut exists. -/
def cutProgressOf (s : AppState) (cutId : String) : Option (Option ℕ) :=
  (findCut s.cuts cutId).map (fun c => c.progress)

/-- The cut list with the cut of the given id blanked out: two states agree
under `maskOthers cutId` exactly when every *other* cut (and the list
positions) are untouched. -/
def maskOthers (cutId : String) (cuts : List Cut) : List (Option Cut) :=
  cuts.map (fun c => if c.cut_id == cutId then none else some c)

/-- The state carried by a submission-loop result. -/
def stateOfSubmit : SubmitResult → AppState
  | .accepted s => s
  | .thrown s _ => s
  | .cancelled s => s
  | .fuelOut s => s

/-- The state carried by a poll-loop result. -/
def stateOfPoll : PollResult → AppState
  | .finished s => s
  | .thrown s _ => s
  | .cancelled s => s
  | .fuelOut s => s

/-- The scheduler safety invariant: the in-flight set is within the bound
and every cut in a running status is driven by an in-flight driver. -/
def schedInv (cLimit : ℕ) (s : SchedState) : Prop :=
  s.active.card ≤ cLimit ∧
    ∀ c ∈ s.cuts, runningStatus c.status = true → c.cut_id ∈ s.active

/-! ## Helper lemmas -/

theorem findCut_updCut (cuts : List Cut) (cutId : String) (f : Cut → Cut)
    (hf : ∀ c, (f c).cut_id = c.cut_id) :
    findCut (updCut cuts cutId f) cutId = (findCut cuts cutId).map f := by
  induction cuts with
  | nil => rfl
  | cons c cs ih =>
    unfold findCut updCut at ih ⊢
    rw [List.map_cons]
    by_cases h : c.cut_id = cutId
    · rw [if_pos (by simp [h]), List.find?_cons_of_pos _ (by simp [hf, h]),
        List.find?_cons_of_pos _ (by simp [h])]
      rfl
    · rw [if_neg (by simp [h]), List.find?_cons_of_neg _ (by simp [h]),
        List.find?_cons_of_neg _ (by simp [h]), ih]

theorem updCut_map_ids (cuts : List Cut) (cutId : String) (f : Cut → Cut)
    (hf : ∀ c, (f c).cut_id = c.cut_id) :
    (updCut cuts cutId f).map (fun c => c.cut_id) = cuts.map (fun c => c.cut_id) := by
  unfold updCut
  rw [List.map_map]
  apply List.map_congr_left
  intro a _
  by_cases h : a.cut_id = cutId <;> simp [h, hf]

theorem maskOthers_updCut (cuts : List Cut) (cutId : String) (f : Cut → Cut)
    (hf : ∀ c, (f c).cut_id = c.cut_id) :
    maskOthers cutId (updCut cuts cutId f) = maskOthers cutId cuts := by
  unfold maskOthers updCut
  rw [List.map_map]
  apply List.map_congr_left
  intro a _
  by_cases h : a.cut_id = cutId <;> simp [h, hf]

theorem statusIsIdle_false_of_cutStatus (s : AppState) (cutId : String)
    (st : GenerationStatus) (h : cutStatus s cutId = some st) (hne : st ≠ .idle) :
    statusIsIdle (findCut s.cuts cutId) = false := by
  unfold cutStatus at h
  cases hc : findCut s.cuts cutId with
  | none => simp [hc] at h
  | some c =>
    simp [hc] at h
    simp [statusIsIdle, h, hne]

theorem cutStatus_setStatusMessage (s : AppState) (cutId m : String) :
    cutStatus (setStatusMessage s cutId m) cutId = cutStatus s cutId := by
  unfold cutStatus setStatusMessage
  rw [findCut_updCut s.cuts cutId (fun c => { c with statusMessage := some m }) (fun c => rfl)]
  cases findCut s.cuts cutId <;> rfl

theorem cutError_setStatusMessage (s : AppState) (cutId m : String) :
    cutError (setStatusMessage s cutId m) cutId = cutError s cutId := by
  unfold cutError setStatusMessage
  rw [findCut_updCut s.cuts cutId (fun c => { c with statusMessage := some m }) (fun c => rfl)]
  cases findCut s.cuts cutId <;> rfl

theorem cutProgressOf_setStatusMessage (s : AppState) (cutId m : String) :
    cutProgressOf (setStatusMessage s cutId m) cutId = cutProgressOf s cutId := by
  unfold cutProgressOf setStatusMessage
  rw [findCut_updCut s.cuts cutId (fun c => { c with statusMessage := some m }) (fun c => rfl)]
  cases findCut s.cuts cutId <;> rfl

theorem findCut_startAttempt (s : AppState) (cutId : String) (now : ℕ) (c0 : Cut)
    (hfind : findCut s.cuts cutId = some c0) :
    findCut (startAttempt s cutId now).cuts cutId =
      some { c0 with status := .generating, error := none, progress := some 5,
                     startTime := some now,
                     statusMessage := some "🎨 Compositing Assets..." } := by
  unfold startAttempt
  rw [findCut_updCut s.cuts cutId (fun c =>
    { c with status := .generating, error := none, progress := some 5,
             startTime := some now,
             statusMessage := some "🎨 Compositing Assets..." }) (fun c => rfl), hfind]
  rfl

theorem submitLoop_accept_first (cutId : String) (s : AppState) (retries : ℕ)
    (rest : List SubmitStep)
    (hidle : statusIsIdle (findCut s.cuts cutId) = false) :
    submitLoop cutId s retries ({ cancelBefore := false, outcome := .accepted } :: rest) =
      .accepted s := by
  simp [submitLoop, hidle]

theorem submitLoop_retryable_step (cutId : String) (s : AppState) (retries : ℕ)
    (rest : List SubmitStep)
    (hidle : statusIsIdle (findCut s.cuts cutId) = false)
    (hceil : retries + 1 < 8) :
    submitLoop cutId s retries ({ cancelBefore := false, outcome := .retryable } :: rest) =
      submitLoop cutId (setStatusMessage s cutId (waitMsg (submitDelay (retries + 1))))
        (retries + 1) rest := by
  simp [submitLoop, hidle, Nat.not_le.mpr hceil]

theorem submitLoop_quota (cutId : String) (st : GenerationStatus) (hne : st ≠ .idle) :
    ∀ (k retries : ℕ) (s : AppState), 8 ≤ retries + k → retries < 8 →
      cutStatus s cutId = some st →
      ∃ s2, submitLoop cutId s retries
          (List.replicate k { cancelBefore := false, outcome := .retryable }) =
            .thrown s2 quotaMsg ∧ cutStatus s2 cutId = some st := by
  intro k
  induction k with
  | zero => intro retries s h1 h2 _; omega
  | succ k ih =>
    intro retries s h1 h2 hst
    have hidle := statusIsIdle_false_of_cutStatus s cutId st hst hne
    rw [List.replicate_succ]
    by_cases hc : 8 ≤ retries + 1
    · refine ⟨s, ?_, hst⟩
      simp [submitLoop, hidle, hc]
    · rw [submitLoop_retryable_step cutId s retries _ hidle (by omega)]
      exact ih (retries + 1) _ (by omega) (by omega)
        (by rw [cutStatus_setStatusMessage]; exact hst)

theorem maskOthers_cancelCut (s : AppState) (cutId : String) :
    maskOthers cutId (cancelCut s cutId).cuts = maskOthers cutId s.cuts :=
  maskOthers_updCut s.cuts cutId
    (fun c => { c with status := .idle, error := some "Cancelled by user" }) (fun _ => rfl)

theorem maskOthers_setStatusMessage (s : AppState) (cutId m : String) :
    maskOthers cutId (setStatusMessage s cutId m).cuts = maskOthers cutId s.cuts :=
  maskOthers_updCut s.cuts cutId (fun c => { c with statusMessage := some m }) (fun _ => rfl)

theorem maskOthers_cancelIf (s : AppState) (cutId : String) (b : Bool) :
    maskOthers cutId (if b then cancelCut s cutId else s).cuts = maskOthers cutId s.cuts := by
  by_cases hb : b = true
  · simpa [hb] using maskOthers_cancelCut s cutId
  · simp at hb
    simp [hb]

theorem maskOthers_submitLoop (cutId : String) :
    ∀ (steps : List SubmitStep) (retries : ℕ) (s : AppState),
      maskOthers cutId (stateOfSubmit (submitLoop cutId s retries steps)).cuts =
        maskOthers cutId s.cuts := by
  intro steps
  induction steps with
  | nil =>
    intro retries s
    rfl
  | cons step rest ih =>
    intro retries s
    have hmask1 := maskOthers_cancelIf s cutId step.cancelBefore
    simp only [submitLoop]
    by_cases hidle :
        statusIsIdle (findCut (if step.cancelBefore then cancelCut s cutId else s).cuts cutId) = true
    · simp [hidle, stateOfSubmit, hmask1]
    · simp only [Bool.not_eq_true] at hidle
      cases ho : step.outcome with
      | accepted => simp [hidle, ho, stateOfSubmit, hmask1]
      | fatal msg => simp [hidle, ho, stateOfSubmit, hmask1]
      | retryable =>
        by_cases hc : retries + 1 ≥ 8
        · simp [hidle, ho, hc, stateOfSubmit, hmask1]
        · simp only [hidle, ho, hc, Bool.false_eq_true, if_false, ite_false]
          rw [ih]
          rw [maskOthers_setStatusMessage]
          exact hmask1

theorem maskOthers_pollLoop (quality : Bool) (cutId : String) :
    ∀ (steps : List PollStep) (opDone : Bool) (s : AppState),
      maskOthers cutId (stateOfPoll (pollLoop quality cutId s opDone steps)).cuts =
        maskOthers cutId s.cuts := by
  intro steps
  induction steps with
  | nil =>
    intro opDone s
    cases opDone <;> rfl
  | cons step rest ih =>
    intro opDone s
    cases opDone with
    | true => rfl
    | false =>
      have hmask1 := maskOthers_cancelIf s cutId step.cancelBefore
      simp only [pollLoop]
      by_cases hidle :
          statusIsIdle (findCut (if step.cancelBefore then cancelCut s cutId else s).cuts cutId) = true
      · simp [hidle, stateOfPoll, hmask1]
      · simp only [Bool.not_eq_true] at hidle
        by_cases he : step.elapsed > MAX_POLL_TIME
        · simp [hidle, he, stateOfPoll, hmask1]
        · cases hf : step.fetch with
          | fatal msg => simp [hidle, he, hf, stateOfPoll, hmask1]
          | retryable =>
            simp only [hidle, he, hf, Bool.false_eq_true, if_false, ite_false]
            rw [ih]
            exact hmask1
          | ok done2 =>
            simp only [hidle, he, hf, Bool.false_eq_true, if_false, ite_false]
            rw [ih]
            rw [maskOthers_updCut _ cutId (fun c =>
              { c with progress := some (min 95 (progressOr20 c.progress + pollInc quality)) })
              (fun c => rfl)]
            exact hmask1

theorem pollLoop_timeout_first (quality : Bool) (cutId : String) (s : AppState)
    (rest : List PollStep) (e : ℕ) (fetch : PollFetch)
    (hidle : statusIsIdle (findCut s.cuts cutId) = false)
    (he : e > MAX_POLL_TIME) :
    pollLoop quality cutId s false
        ({ cancelBefore := false, elapsed := e, fetch := fetch } :: rest) =
      .thrown s timeoutMsg := by
  simp [pollLoop, hidle, he]

theorem pollLoop_ok_done_first (quality : Bool) (cutId : String) (s : AppState)
    (rest : List PollStep) (e : ℕ)
    (hidle : statusIsIdle (findCut s.cuts cutId) = false)
    (he : ¬ e > MAX_POLL_TIME) :
    pollLoop quality cutId s false
        ({ cancelBefore := false, elapsed := e, fetch := .ok true } :: rest) =
      .finished { s with cuts := updCut s.cuts cutId (fun c =>
        { c with progress := some (min 95 (progressOr20 c.progress + pollInc quality)) }) } := by
  simp [pollLoop, hidle, he]

theorem findCut_updCut_eq (cuts : List Cut) (cutId : String) (f : Cut → Cut) (c0 : Cut)
    (hf : ∀ c, (f c).cut_id = c.cut_id) (hfind : findCut cuts cutId = some c0) :
    findCut (updCut cuts cutId f) cutId = some (f c0) := by
  rw [findCut_updCut cuts cutId f hf, hfind]
  rfl

theorem cancelCut_obs (s : AppState) (cutId : String) (c0 : Cut)
    (hfind : findCut s.cuts cutId = some c0) :
    cutStatus (cancelCut s cutId) cutId = some .idle ∧
    cutError (cancelCut s cutId) cutId = some (some "Cancelled by user") ∧
    cutId ∉ (cancelCut s cutId).locks := by
  have h := findCut_updCut_eq s.cuts cutId
    (fun c => { c with status := .idle, error := some "Cancelled by user" }) c0
    (fun c => rfl) hfind
  refine ⟨?_, ?_, ?_⟩
  · unfold cutStatus cancelCut
    rw [h]
    rfl
  · unfold cutError cancelCut
    rw [h]
    rfl
  · exact Finset.not_mem_erase cutId s.locks

theorem applyCatch_obs (s : AppState) (cutId msg : String) (c0 : Cut)
    (hfind : findCut s.cuts cutId = some c0) :
    cutStatus (applyCatch s cutId msg) cutId = some .error ∧
    cutError (applyCatch s cutId msg) cutId = some (some (catchMsg msg)) := by
  have h := findCut_updCut_eq s.cuts cutId
    (fun c => { c with status := .error, error := some (catchMsg msg) }) c0
    (fun c => rfl) hfind
  constructor
  · unfold cutStatus applyCatch
    rw [h]
    rfl
  · unfold cutError applyCatch
    rw [h]
    rfl

theorem mem_updCut (cuts : List Cut) (cutId : String) (f : Cut → Cut) (c : Cut)
    (hc : c ∈ updCut cuts cutId f) :
    (∃ c0, c0 ∈ cuts ∧ c0.cut_id = cutId ∧ c = f c0) ∨ (c ∈ cuts ∧ c.cut_id ≠ cutId) := by
  unfold updCut at hc
  rcases List.mem_map.mp hc with ⟨c0, hc0, heq⟩
  by_cases h : c0.cut_id = cutId
  · left
    refine ⟨c0, hc0, h, ?_⟩
    rw [← heq]
    simp [h]
  · right
    have : c = c0 := by rw [← heq]; simp [h]
    rw [this]
    exact ⟨hc0, h⟩

theorem driverBody_nonTest (env : Env) (i : DriverInput) (s : AppState)
    (cutId : String) (cut0 : Cut)
    (hfind : findCut s.cuts cutId = some cut0)
    (hcancel : i.cancelAfterComposite = false)
    (htest : env.isTestMode = false) :
    driverBody env i s cutId =
      submitPhase env i
        { cut0 with status := .generating, error := none, progress := some 5,
                    startTime := some i.nowStart,
                    statusMessage := some "🎨 Compositing Assets..." }
        (composeFor env cut0) cutId (startAttempt s cutId i.nowStart) := by
  have h1 := findCut_startAttempt s cutId i.nowStart cut0 hfind
  unfold driverBody
  rw [hfind]
  simp only [hcancel, Bool.false_eq_true, if_false, ite_false, h1, statusIsIdle, htest]
  rfl

theorem catchMsg_quota : catchMsg quotaMsg = quotaMsg := by decide

theorem catchMsg_timeout : catchMsg timeoutMsg = timeoutMsg := by decide

theorem submitPhase_quota (env : Env) (i : DriverInput) (fresh : Cut)
    (comp : CompositeResult) (cutId : String) (s2 : AppState)
    (hstatus : cutStatus s2 cutId = some .generating)
    (hsub : i.submits = List.replicate 8 { cancelBefore := false, outcome := .retryable }) :
    ∃ s4, submitPhase env i fresh comp cutId s2 =
        (applyCatch s4 cutId quotaMsg, .errored quotaMsg) ∧
      cutStatus s4 cutId = some .generating := by
  have hst3 : cutStatus (setStatusMessage s2 cutId "🚀 Sending to Veo Cloud...") cutId =
      some .generating := by
    rw [cutStatus_setStatusMessage]
    exact hstatus
  obtain ⟨s4, hloop, hs4⟩ :=
    submitLoop_quota cutId .generating (by decide) 8 0 _ (by omega) (by omega) hst3
  refine ⟨s4, ?_, hs4⟩
  simp only [submitPhase]
  rw [hsub, hloop]
  simp only [catchMsg_quota]

theorem submitPhase_accept (env : Env) (i : DriverInput) (fresh : Cut)
    (comp : CompositeResult) (cutId : String) (s2 : AppState)
    (hstatus : cutStatus s2 cutId = some .generating)
    (hsub : i.submits = [{ cancelBefore := false, outcome := .accepted }]) :
    submitPhase env i fresh comp cutId s2 =
      pollPhase env i fresh comp cutId (setStatusMessage s2 cutId "🚀 Sending to Veo Cloud...") := by
  have hst3 : cutStatus (setStatusMessage s2 cutId "🚀 Sending to Veo Cloud...") cutId =
      some .generating := by
    rw [cutStatus_setStatusMessage]
    exact hstatus
  have hidle := statusIsIdle_false_of_cutStatus _ cutId .generating hst3 (by decide)
  simp only [submitPhase]
  rw [hsub, submitLoop_accept_first _ _ _ _ hidle]

theorem pollPhase_timeout (env : Env) (i : DriverInput) (fresh : Cut)
    (comp : CompositeResult) (cutId : String) (s4 : AppState) (c4 : Cut)
    (e : ℕ) (frest : List PollStep) (fet : PollFetch)
    (hfind : findCut s4.cuts cutId = some c4)
    (hdone : i.initialDone = false)
    (hpolls : i.polls = { cancelBefore := false, elapsed := e, fetch := fet } :: frest)
    (he : e > MAX_POLL_TIME) :
    ∃ s5, pollPhase env i fresh comp cutId s4 =
        (applyCatch s5 cutId timeoutMsg, .errored timeoutMsg) ∧
      findCut s5.cuts cutId =
        some { c4 with status := .polling, progress := some 20,
                       statusMessage := some "☁️ Processing on Google Cloud..." } := by
  have h5 := findCut_updCut_eq s4.cuts cutId
    (fun c => { c with status := .polling, progress := some 20,
                       statusMessage := some "☁️ Processing on Google Cloud..." }) c4
    (fun c => rfl) hfind
  refine ⟨{ s4 with cuts := updCut s4.cuts cutId (fun c =>
    { c with status := .polling, progress := some 20,
             statusMessage := some "☁️ Processing on Google Cloud..." }) }, ?_, h5⟩
  have hidle : statusIsIdle (findCut (updCut s4.cuts cutId (fun c =>
      { c with status := .polling, progress := some 20,
               statusMessage := some "☁️ Processing on Google Cloud..." })) cutId) = false := by
    rw [h5]
    rfl
  simp only [pollPhase]
  rw [hdone, hpolls, pollLoop_timeout_first _ _ _ _ _ _ hidle he]
  simp only [catchMsg_timeout]

theorem completionPhase_completed (env : Env) (i : DriverInput) (fresh : Cut)
    (comp : CompositeResult) (cutId : String) (s6 : AppState)
    (huri : i.videoUri.isSome) (hdl : i.downloadOk = true) :
    (completionPhase env i fresh comp cutId s6).2 = .completed := by
  unfold completionPhase
  cases hu : i.videoUri with
  | none =>
    rw [hu] at huri
    simp at huri
  | some u => simp [hu, hdl]

theorem pollPhase_happy (env : Env) (i : DriverInput) (fresh : Cut)
    (comp : CompositeResult) (cutId : String) (s4 : AppState) (c4 : Cut) (e : ℕ)
    (hfind : findCut s4.cuts cutId = some c4)
    (hdone : i.initialDone = false)
    (hpolls : i.polls = [{ cancelBefore := false, elapsed := e, fetch := .ok true }])
    (he : ¬ e > MAX_POLL_TIME)
    (huri : i.videoUri.isSome) (hdl : i.downloadOk = true) :
    (pollPhase env i fresh comp cutId s4).2 = .completed := by
  have h5 := findCut_updCut_eq s4.cuts cutId
    (fun c => { c with status := .polling, progress := some 20,
                       statusMessage := some "☁️ Processing on Google Cloud..." }) c4
    (fun c => rfl) hfind
  have hidle : statusIsIdle (findCut (updCut s4.cuts cutId (fun c =>
      { c with status := .polling, progress := some 20,
               statusMessage := some "☁️ Processing on Google Cloud..." })) cutId) = false := by
    rw [h5]
    rfl
  simp only [pollPhase]
  rw [hdone, hpolls, pollLoop_ok_done_first _ _ _ _ _ hidle he]
  exact completionPhase_completed env i fresh comp cutId _ huri hdl

theorem findCut_of_cutStatus (s : AppState) (cutId : String) (st : GenerationStatus)
    (h : cutStatus s cutId = some st) :
    ∃ c, findCut s.cuts cutId = some c ∧ c.status = st := by
  unfold cutStatus at h
  cases hc : findCut s.cuts cutId with
  | none => simp [hc] at h
  | some c =>
    rw [hc] at h
    simp at h
    exact ⟨c, rfl, h⟩

theorem generateCutVideo_eq (env : Env) (i : DriverInput) (s : AppState) (cutId : String)
    (hlock : cutId ∉ s.locks) :
    generateCutVideo env i s cutId =
      (if (driverBody env i { s with locks := insert cutId s.locks } cutId).2 = .fuelOut then
        driverBody env i { s with locks := insert cutId s.locks } cutId
      else
        ({ (driverBody env i { s with locks := insert cutId s.locks } cutId).1 with
            locks := (driverBody env i { s with locks := insert cutId s.locks } cutId).1.locks.erase cutId },
          (driverBody env i { s with locks := insert cutId s.locks } cutId).2)) := by
  simp [generateCutVideo, hlock]

theorem generateCutVideo_exit (env : Env) (i : DriverInput) (s : AppState) (cutId : String)
    (hlock : cutId ∉ s.locks) :
    (generateCutVideo env i s cutId).2 =
      (driverBody env i { s with locks := insert cutId s.locks } cutId).2 := by
  rw [generateCutVideo_eq env i s cutId hlock]
  by_cases hf : (driverBody env i { s with locks := insert cutId s.locks } cutId).2 = .fuelOut
  · simp [hf]
  · simp [hf]

theorem submitPhase_fuel (env : Env) (i : DriverInput) (fresh : Cut)
    (comp : CompositeResult) (cutId : String) (s2 : AppState)
    (hsub : i.submits = []) :
    submitPhase env i fresh comp cutId s2 =
      (setStatusMessage s2 cutId "🚀 Sending to Veo Cloud...", .fuelOut) := by
  simp only [submitPhase]
  rw [hsub]
  rfl

theorem pollLoop_cancel_first (quality : Bool) (cutId : String) (s : AppState) (c : Cut)
    (e : ℕ) (fet : PollFetch) (rest : List PollStep)
    (hfind : findCut s.cuts cutId = some c) :
    pollLoop quality cutId s false ({ cancelBefore := true, elapsed := e, fetch := fet } :: rest) =
      .cancelled { (cancelCut s cutId) with locks := (cancelCut s cutId).locks.erase cutId } := by
  have h := findCut_updCut_eq s.cuts cutId
    (fun c => { c with status := .idle, error := some "Cancelled by user" }) c
    (fun c => rfl) hfind
  have hidle : statusIsIdle (findCut (cancelCut s cutId).cuts cutId) = true := by
    show statusIsIdle (findCut (updCut s.cuts cutId
      (fun c => { c with status := .idle, error := some "Cancelled by user" })) cutId) = true
    rw [h]
    rfl
  simp [pollLoop, hidle]

theorem pollPhase_cancel (env : Env) (i : DriverInput) (fresh : Cut)
    (comp : CompositeResult) (cutId : String) (s4 : AppState) (c4 : Cut)
    (e : ℕ) (fet : PollFetch) (frest : List PollStep)
    (hfind : findCut s4.cuts cutId = some c4)
    (hdone : i.initialDone = false)
    (hpolls : i.polls = { cancelBefore := true, elapsed := e, fetch := fet } :: frest) :
    (pollPhase env i fresh comp cutId s4).2 = .cancelled := by
  have h5 := findCut_updCut_eq s4.cuts cutId
    (fun c => { c with status := .polling, progress := some 20,
                       statusMessage := some "☁️ Processing on Google Cloud..." }) c4
    (fun c => rfl) hfind
  simp only [pollPhase]
  rw [hdone, hpolls, pollLoop_cancel_first _ _ _ _ _ _ _ h5]

theorem maskOthers_applyCatch (s : AppState) (cutId msg : String) :
    maskOthers cutId (applyCatch s cutId msg).cuts = maskOthers cutId s.cuts :=
  maskOthers_updCut s.cuts cutId
    (fun c => { c with status := .error, error := some (catchMsg msg) }) (fun _ => rfl)

theorem maskOthers_addToHistory (cuts : List Cut) (cutId : String) (asset : GeneratedAsset) :
    maskOthers cutId (addToHistory cuts cutId asset) = maskOthers cutId cuts :=
  maskOthers_updCut cuts cutId (fun c => { c with history := asset :: c.history }) (fun _ => rfl)

theorem maskOthers_completionPhase (env : Env) (i : DriverInput) (fresh : Cut)
    (comp : CompositeResult) (cutId : String) (s6 : AppState)
    (hlink : env.isAutoLinkMode = false ∨
      ∃ err, extractLastFrameFromVideo i.video = .error err) :
    maskOthers cutId (completionPhase env i fresh comp cutId s6).1.cuts =
      maskOthers cutId s6.cuts := by
  have h8 : (if env.isAutoLinkMode then
      match extractLastFrameFromVideo i.video with
      | .error _ => setStatusMessage s6 cutId "⬇️ Downloading Video..."
      | .ok frame =>
        { setStatusMessage s6 cutId "⬇️ Downloading Video..." with
            cuts := autoLinkApply (setStatusMessage s6 cutId "⬇️ Downloading Video...").cuts cutId frame }
    else setStatusMessage s6 cutId "⬇️ Downloading Video...") =
      setStatusMessage s6 cutId "⬇️ Downloading Video..." := by
    rcases hlink with hno | ⟨err, herr⟩
    · simp [hno]
    · by_cases hl : env.isAutoLinkMode <;> simp [hl, herr]
  unfold completionPhase
  cases hu : i.videoUri with
  | none => exact maskOthers_applyCatch s6 cutId "No video URI"
  | some u =>
    by_cases hdl : i.downloadOk = false
    · simp only [hdl, if_true, ite_true]
      rw [maskOthers_applyCatch, maskOthers_setStatusMessage]
    · simp only [hdl, if_false, ite_false]
      rw [h8]
      show maskOthers cutId (updCut (addToHistory
        (setStatusMessage s6 cutId "⬇️ Downloading Video...").cuts cutId _) cutId _) =
        maskOthers cutId s6.cuts
      rw [maskOthers_updCut _ cutId (fun c =>
        { c with status := .completed, videoUrl := some i.blobUrl,
                 progress := some 100, statusMessage := some "Completed" }) (fun _ => rfl)]
      rw [maskOthers_addToHistory, maskOthers_setStatusMessage]

theorem maskOthers_testModePhase (env : Env) (i : DriverInput)
    (comp : CompositeResult) (cutId : String) (s2 : AppState)
    (hno : env.isAutoLinkMode = false) :
    maskOthers cutId (testModePhase env i comp cutId s2).1.cuts =
      maskOthers cutId s2.cuts := by
  unfold testModePhase
  simp only [hno, Bool.false_eq_true, if_false, ite_false]
  show maskOthers cutId (addToHistory (updCut s2.cuts cutId _) cutId _) = maskOthers cutId s2.cuts
  rw [maskOthers_addToHistory]
  rw [maskOthers_updCut _ cutId (fun c =>
    { c with status := .completed,
             videoUrl := some (if urlOf comp ≠ "" then urlOf comp else testModePlaceholder),
             progress := some 100,
             statusMessage := some "Completed (Test Mode)" }) (fun _ => rfl)]

theorem maskOthers_pollPhase (env : Env) (i : DriverInput) (fresh : Cut)
    (comp : CompositeResult) (cutId : String) (s4 : AppState)
    (hlink : env.isAutoLinkMode = false ∨
      ∃ err, extractLastFrameFromVideo i.video = .error err) :
    maskOthers cutId (pollPhase env i fresh comp cutId s4).1.cuts =
      maskOthers cutId s4.cuts := by
  have hupd : maskOthers cutId (updCut s4.cuts cutId (fun c =>
      { c with status := .polling, progress := some 20,
               statusMessage := some "☁️ Processing on Google Cloud..." })) =
      maskOthers cutId s4.cuts :=
    maskOthers_updCut s4.cuts cutId _ (fun _ => rfl)
  have hpoll := maskOthers_pollLoop env.qualityMode cutId i.polls i.initialDone
    ({ s4 with cuts := updCut s4.cuts cutId (fun c =>
      { c with status := .polling, progress := some 20,
               statusMessage := some "☁️ Processing on Google Cloud..." }) })
  show maskOthers cutId
      ((match pollLoop env.qualityMode cutId ({ s4 with cuts := updCut s4.cuts cutId (fun c =>
          { c with status := .polling, progress := some 20,
                   statusMessage := some "☁️ Processing on Google Cloud..." }) })
          i.initialDone i.polls with
        | PollResult.cancelled s6 => (s6, DriverExit.cancelled)
        | PollResult.thrown s6 msg => (applyCatch s6 cutId msg, DriverExit.errored (catchMsg msg))
        | PollResult.fuelOut s6 => (s6, DriverExit.fuelOut)
        | PollResult.finished s6 => completionPhase env i fresh comp cutId s6).1.cuts) =
    maskOthers cutId s4.cuts
  cases hpl : pollLoop env.qualityMode cutId ({ s4 with cuts := updCut s4.cuts cutId (fun c =>
      { c with status := .polling, progress := some 20,
               statusMessage := some "☁️ Processing on Google Cloud..." }) })
      i.initialDone i.polls with
  | cancelled s6 =>
    rw [hpl] at hpoll
    simp only [stateOfPoll] at hpoll
    show maskOthers cutId s6.cuts = maskOthers cutId s4.cuts
    rw [hpoll, hupd]
  | thrown s6 msg =>
    rw [hpl] at hpoll
    simp only [stateOfPoll] at hpoll
    show maskOthers cutId (applyCatch s6 cutId msg).cuts = maskOthers cutId s4.cuts
    rw [maskOthers_applyCatch, hpoll, hupd]
  | fuelOut s6 =>
    rw [hpl] at hpoll
    simp only [stateOfPoll] at hpoll
    show maskOthers cutId s6.cuts = maskOthers cutId s4.cuts
    rw [hpoll, hupd]
  | finished s6 =>
    rw [hpl] at hpoll
    simp only [stateOfPoll] at hpoll
    show maskOthers cutId (completionPhase env i fresh comp cutId s6).1.cuts =
      maskOthers cutId s4.cuts
    rw [maskOthers_completionPhase env i fresh comp cutId s6 hlink, hpoll, hupd]

theorem maskOthers_submitPhase (env : Env) (i : DriverInput) (fresh : Cut)
    (comp : CompositeResult) (cutId : String) (s2 : AppState)
    (hlink : env.isAutoLinkMode = false ∨
      ∃ err, extractLastFrameFromVideo i.video = .error err) :
    maskOthers cutId (submitPhase env i fresh comp cutId s2).1.cuts =
      maskOthers cutId s2.cuts := by
  have hsub := maskOthers_submitLoop cutId i.submits 0
    (setStatusMessage s2 cutId "🚀 Sending to Veo Cloud...")
  show maskOthers cutId
      ((match submitLoop cutId (setStatusMessage s2 cutId "🚀 Sending to Veo Cloud...") 0
          i.submits with
        | SubmitResult.cancelled s4 => (s4, DriverExit.cancelled)
        | SubmitResult.thrown s4 msg => (applyCatch s4 cutId msg, DriverExit.errored (catchMsg msg))
        | SubmitResult.fuelOut s4 => (s4, DriverExit.fuelOut)
        | SubmitResult.accepted s4 => pollPhase env i fresh comp cutId s4).1.cuts) =
    maskOthers cutId s2.cuts
  cases hsl : submitLoop cutId (setStatusMessage s2 cutId "🚀 Sending to Veo Cloud...") 0
      i.submits with
  | cancelled s4 =>
    rw [hsl] at hsub
    simp only [stateOfSubmit] at hsub
    show maskOthers cutId s4.cuts = maskOthers cutId s2.cuts
    rw [hsub, maskOthers_setStatusMessage]
  | thrown s4 msg =>
    rw [hsl] at hsub
    simp only [stateOfSubmit] at hsub
    show maskOthers cutId (applyCatch s4 cutId msg).cuts = maskOthers cutId s2.cuts
    rw [maskOthers_applyCatch, hsub, maskOthers_setStatusMessage]
  | fuelOut s4 =>
    rw [hsl] at hsub
    simp only [stateOfSubmit] at hsub
    show maskOthers cutId s4.cuts = maskOthers cutId s2.cuts
    rw [hsub, maskOthers_setStatusMessage]
  | accepted s4 =>
    rw [hsl] at hsub
    simp only [stateOfSubmit] at hsub
    show maskOthers cutId (pollPhase env i fresh comp cutId s4).1.cuts = maskOthers cutId s2.cuts
    rw [maskOthers_pollPhase env i fresh comp cutId s4 hlink, hsub, maskOthers_setStatusMessage]

theorem maskOthers_driverBody (env : Env) (i : DriverInput) (s : AppState) (cutId : String)
    (hlink : env.isAutoLinkMode = false ∨
      (env.isTestMode = false ∧ ∃ err, extractLastFrameFromVideo i.video = .error err)) :
    maskOthers cutId (driverBody env i s cutId).1.cuts = maskOthers cutId s.cuts := by
  have hlink2 : env.isAutoLinkMode = false ∨
      ∃ err, extractLastFrameFromVideo i.video = .error err := by
    rcases hlink with h | ⟨_, h⟩
    · exact Or.inl h
    · exact Or.inr h
  have hstart : maskOthers cutId (startAttempt s cutId i.nowStart).cuts = maskOthers cutId s.cuts :=
    maskOthers_updCut s.cuts cutId _ (fun _ => rfl)
  have hcanc : maskOthers cutId
      (if i.cancelAfterComposite then cancelCut (startAttempt s cutId i.nowStart) cutId
       else startAttempt s cutId i.nowStart).cuts = maskOthers cutId s.cuts := by
    rw [maskOthers_cancelIf, hstart]
  unfold driverBody
  cases hf : findCut s.cuts cutId with
  | none => rfl
  | some cut0 =>
    by_cases hidle : statusIsIdle (findCut
        (if i.cancelAfterComposite then cancelCut (startAttempt s cutId i.nowStart) cutId
         else startAttempt s cutId i.nowStart).cuts cutId) = true
    · simp only [hidle, if_true, ite_true]
      exact hcanc
    · simp only [Bool.not_eq_true] at hidle
      simp only [hidle, Bool.false_eq_true, if_false, ite_false]
      by_cases htest : env.isTestMode = true
      · have hno : env.isAutoLinkMode = false := by
          rcases hlink with h | ⟨h2, _⟩
          · exact h
          · rw [htest] at h2; cases h2
        simp only [htest, if_true, ite_true]
        rw [maskOthers_testModePhase env i _ cutId _ hno]
        exact hcanc
      · simp only [Bool.not_eq_true] at htest
        simp only [htest, Bool.false_eq_true, if_false, ite_false]
        cases hf2 : findCut
            (if i.cancelAfterComposite then cancelCut (startAttempt s cutId i.nowStart) cutId
             else startAttempt s cutId i.nowStart).cuts cutId with
        | none => exact hcanc
        | some freshCut =>
          rw [maskOthers_submitPhase env i freshCut _ cutId _ hlink2]
          exact hcanc

theorem maskOthers_generateCutVideo (env : Env) (i : DriverInput) (s : AppState) (cutId : String)
    (hlink : env.isAutoLinkMode = false ∨
      (env.isTestMode = false ∧ ∃ err, extractLastFrameFromVideo i.video = .error err)) :
    maskOthers cutId (generateCutVideo env i s cutId).1.cuts = maskOthers cutId s.cuts := by
  unfold generateCutVideo
  by_cases hl : cutId ∈ s.locks
  · simp [hl]
  · simp only [hl, if_false, ite_false]
    have h := maskOthers_driverBody env i { s with locks := insert cutId s.locks } cutId hlink
    by_cases hfo : (driverBody env i { s with locks := insert cutId s.locks } cutId).2 = .fuelOut
    · simp only [hfo, if_true, ite_true]
      exact h
    · simp only [hfo, if_false, ite_false]
      exact h

theorem autoLinkApply_others (cuts : List Cut) (cutId frame : String) (k : ℕ)
    (hno : (cuts.map (fun c => c.cut_id)).Nodup)
    (hidx : cuts.findIdx? (fun c => c.cut_id == cutId) = some k)
    (hlen : k + 1 < cuts.length) :
    ∀ j, j ≠ k + 1 → (autoLinkApply cuts cutId frame)[j]? = cuts[j]? := by
  intro j hj
  unfold autoLinkApply
  simp only [hidx]
  rw [dif_pos hlen]
  unfold updCut
  rw [List.getElem?_map]
  cases hcj : cuts[j]? with
  | none => rfl
  | some cj =>
    have hjlt : j < cuts.length := by
      by_contra hge
      rw [List.getElem?_eq_none (by omega)] at hcj
      cases hcj
    have hje : cuts[j]? = some (cuts.get ⟨j, hjlt⟩) := by
      rw [List.getElem?_eq_getElem hjlt]
      rfl
    rw [hje] at hcj
    have hcje : cj = cuts.get ⟨j, hjlt⟩ := by
      cases hcj
      rfl
    have hne : cj.cut_id ≠ (cuts.get ⟨k + 1, hlen⟩).cut_id := by
      intro heq
      have hmno : (cuts.map (fun c => c.cut_id)).get ⟨j, by simpa using hjlt⟩ =
          (cuts.map (fun c => c.cut_id)).get ⟨k + 1, by simpa using hlen⟩ := by
        simp only [List.get_eq_getElem, List.getElem_map]
        have hj2 : cuts[j] = cuts.get ⟨j, hjlt⟩ := rfl
        have hk2 : cuts[k + 1] = cuts.get ⟨k + 1, hlen⟩ := rfl
        rw [hj2, hk2, ← hcje]
        exact heq
      have hfin := (List.Nodup.get_inj_iff hno).mp hmno
      simp at hfin
      exact hj hfin
    have hne2 : cj.cut_id ≠ cuts[k + 1].cut_id := by
      have hk2 : cuts[k + 1] = cuts.get ⟨k + 1, hlen⟩ := rfl
      rw [hk2]
      exact hne
    simp [hne2]

theorem autoLinkApply_next (cuts : List Cut) (cutId frame : String) (k : ℕ)
    (_hno : (cuts.map (fun c => c.cut_id)).Nodup)
    (hidx : cuts.findIdx? (fun c => c.cut_id == cutId) = some k)
    (hlen : k + 1 < cuts.length) :
    (autoLinkApply cuts cutId frame)[k + 1]? =
      some { cuts.get ⟨k + 1, hlen⟩ with
        composition := some (linkComposition (cuts.get ⟨k + 1, hlen⟩) frame) } := by
  unfold autoLinkApply
  simp only [hidx]
  rw [dif_pos hlen]
  unfold updCut
  rw [List.getElem?_map, List.getElem?_eq_getElem hlen]
  simp [List.get_eq_getElem]

theorem schedStep_inv (cLimit : ℕ) (s : SchedState) (e : BatchEvent)
    (h : schedInv cLimit s) : schedInv cLimit (schedStep cLimit s e) := by
  obtain ⟨hcard, hrun⟩ := h
  cases e with
  | start =>
    by_cases hab : s.aborted = true
    · simpa [schedStep, hab] using ⟨hcard, hrun⟩
    · cases hq : s.queue with
      | nil => simpa [schedStep, hab, hq] using ⟨hcard, hrun⟩
      | cons cut rest =>
        by_cases hcap : s.active.card < cLimit
        · by_cases hcomp : cut.status = .completed
          · simp only [schedStep, hab, hq, hcap, hcomp, Bool.false_eq_true, if_true, if_false,
              ite_true, ite_false]
            exact ⟨hcard, hrun⟩
          · simp only [schedStep, hab, hq, hcap, hcomp, Bool.false_eq_true, if_true, if_false,
              ite_true, ite_false]
            constructor
            · calc (insert cut.cut_id s.active).card ≤ s.active.card + 1 :=
                    Finset.card_insert_le _ _
                _ ≤ cLimit := by omega
            · intro c hc hcr
              rcases mem_updCut _ _ _ _ hc with ⟨c0, hc0, hid, hceq⟩ | ⟨hcmem, hcne⟩
              · rw [hceq]
                simp only []
                rw [hid]
                exact Finset.mem_insert_self _ _
              · exact Finset.mem_insert_of_mem (hrun c hcmem hcr)
        · simpa [schedStep, hab, hq, hcap] using ⟨hcard, hrun⟩
  | tick id st =>
    by_cases hg : id ∈ s.active ∧ runningStatus st = true
    · simp only [schedStep, hg, if_true, ite_true]
      refine ⟨hcard, ?_⟩
      intro c hc hcr
      rcases mem_updCut _ _ _ _ hc with ⟨c0, hc0, hid, hceq⟩ | ⟨hcmem, hcne⟩
      · rw [hceq]
        simp only []
        rw [hid]
        exact hg.1
      · exact hrun c hcmem hcr
    · simpa [schedStep, hg] using ⟨hcard, hrun⟩
  | finish id st =>
    by_cases hg : id ∈ s.active ∧ runningStatus st = false
    · simp only [schedStep, hg, if_true, ite_true]
      constructor
      · exact le_trans Finset.card_erase_le hcard
      · intro c hc hcr
        rcases mem_updCut _ _ _ _ hc with ⟨c0, hc0, hid, hceq⟩ | ⟨hcmem, hcne⟩
        · rw [hceq] at hcr
          simp only [] at hcr
          rw [hg.2] at hcr
          cases hcr
        · exact Finset.mem_erase.mpr ⟨hcne, hrun c hcmem hcr⟩
    · simpa [schedStep, hg] using ⟨hcard, hrun⟩
  | cancel id =>
    simp only [schedStep]
    refine ⟨hcard, ?_⟩
    intro c hc hcr
    rcases mem_updCut _ _ _ _ hc with ⟨c0, hc0, hid, hceq⟩ | ⟨hcmem, hcne⟩
    · rw [hceq] at hcr
      simp only [] at hcr
      cases hcr
    · exact hrun c hcmem hcr
  | abort =>
    simpa [schedStep] using ⟨hcard, hrun⟩

theorem schedStep_ids (cLimit : ℕ) (s : SchedState) (e : BatchEvent) :
    (schedStep cLimit s e).cuts.map (fun c => c.cut_id) = s.cuts.map (fun c => c.cut_id) := by
  cases e with
  | start =>
    by_cases hab : s.aborted = true
    · simp [schedStep, hab]
    · cases hq : s.queue with
      | nil => simp [schedStep, hab, hq]
      | cons cut rest =>
        by_cases hcap : s.active.card < cLimit
        · by_cases hcomp : cut.status = .completed
          · simp [schedStep, hab, hq, hcap, hcomp]
          · simp only [schedStep, hab, hq, hcap, hcomp, Bool.false_eq_true, if_true, if_false,
              ite_true, ite_false]
            exact updCut_map_ids _ _ _ (fun _ => rfl)
        · simp [schedStep, hab, hq, hcap]
  | tick id st =>
    by_cases hg : id ∈ s.active ∧ runningStatus st = true
    · simp only [schedStep, hg, if_true, ite_true]
      exact updCut_map_ids _ _ _ (fun _ => rfl)
    · simp [schedStep, hg]
  | finish id st =>
    by_cases hg : id ∈ s.active ∧ runningStatus st = false
    · simp only [schedStep, hg, if_true, ite_true]
      exact updCut_map_ids _ _ _ (fun _ => rfl)
    · simp [schedStep, hg]
  | cancel id =>
    simp only [schedStep]
    exact updCut_map_ids _ _ _ (fun _ => rfl)
  | abort => rfl

theorem schedExec_inv (cLimit : ℕ) :
    ∀ (events : List BatchEvent) (s : SchedState),
      schedInv cLimit s → schedInv cLimit (schedExec cLimit s events) := by
  intro events
  induction events with
  | nil => intro s h; exact h
  | cons e es ih =>
    intro s h
    exact ih _ (schedStep_inv cLimit s e h)

theorem schedExec_ids (cLimit : ℕ) :
    ∀ (events : List BatchEvent) (s : SchedState),
      (schedExec cLimit s events).cuts.map (fun c => c.cut_id) =
        s.cuts.map (fun c => c.cut_id) := by
  intro events
  induction events with
  | nil => intro s; rfl
  | cons e es ih =>
    intro s
    show (schedExec cLimit (schedStep cLimit s e) es).cuts.map (fun c => c.cut_id) =
      s.cuts.map (fun c => c.cut_id)
    rw [ih, schedStep_ids]

theorem runningCount_le_card (s : SchedState)
    (hno : (s.cuts.map (fun c => c.cut_id)).Nodup)
    (h : ∀ c ∈ s.cuts, runningStatus c.status = true → c.cut_id ∈ s.active) :
    runningCount s ≤ s.active.card := by
  have hsub : List.Sublist ((s.cuts.filter (fun c => runningStatus c.status)).map
      (fun c => c.cut_id)) (s.cuts.map (fun c => c.cut_id)) :=
    List.Sublist.map _ (List.filter_sublist s.cuts)
  have hlno : ((s.cuts.filter (fun c => runningStatus c.status)).map
      (fun c => c.cut_id)).Nodup := List.Nodup.sublist hsub hno
  have hmem : ∀ x ∈ (s.cuts.filter (fun c => runningStatus c.status)).map
      (fun c => c.cut_id), x ∈ s.active := by
    intro x hx
    rcases List.mem_map.mp hx with ⟨c, hc, hcx⟩
    rcases List.mem_filter.mp hc with ⟨hcm, hcr⟩
    rw [← hcx]
    exact h c hcm hcr
  have hfin : ((s.cuts.filter (fun c => runningStatus c.status)).map
      (fun c => c.cut_id)).toFinset ⊆ s.active := by
    intro x hx
    exact hmem x (List.mem_toFinset.mp hx)
  calc runningCount s
      = ((s.cuts.filter (fun c => runningStatus c.status)).map (fun c => c.cut_id)).length := by
        unfold runningCount
        rw [List.length_map]
    _ = ((s.cuts.filter (fun c => runningStatus c.status)).map
          (fun c => c.cut_id)).toFinset.card := (List.toFinset_card_of_nodup hlno).symm
    _ ≤ s.active.card := Finset.card_le_card hfin

theorem createCompositeImage_raw (comp : Option CompositionState)
    (gBg gChar : Option String) (gScale gX gY : Option ℚ) (gChroma : Option ChromaKey)
    (gBgS gBgX gBgY : Option ℚ) (bgRef : String)
    (hchar : truthyStr (resolveCharAsset comp gChar) = false)
    (hbg : resolveBgAsset comp gBg = some bgRef) (hbgt : bgRef ≠ "")
    (hscale : resolveBgScale gBgS = 1)
    (hx : resolveBgX comp gBgX = 0) (hy : resolveBgY comp gBgY = 0) :
    createCompositeImage comp gBg gChar gScale gX gY gChroma gBgS gBgX gBgY .sixteenNine =
      .raw bgRef := by
  have hbt : truthyStr (resolveBgAsset comp gBg) = true := by
    rw [hbg]
    simp [truthyStr, hbgt]
  simp only [createCompositeImage]
  rw [if_pos ⟨hchar, hbt, hscale, hx, hy, trivial⟩, hbg]
  rfl

theorem createCompositeImage_empty (comp : Option CompositionState)
    (gBg gChar : Option String) (gScale gX gY : Option ℚ) (gChroma : Option ChromaKey)
    (gBgS gBgX gBgY : Option ℚ) (a : Aspect)
    (hbg : truthyStr (resolveBgAsset comp gBg) = false) :
    createCompositeImage comp gBg gChar gScale gX gY gChroma gBgS gBgX gBgY a = .empty := by
  simp only [createCompositeImage]
  rw [if_neg (fun hcond => by rw [hcond.2.1] at hbg; cases hbg), if_pos hbg]

/-! ## Claims -/

/-- C2: On every pixel with 8-bit channels, the export-quality chroma-key
step (`applyChromaExportPixel`, part_000 lines 514-518) clears alpha under
key `white` exactly when `R>240 ∧ G>240 ∧ B>240`, and under key `green`
exactly when `G>100 ∧ G−R>40 ∧ G−B>40` (the strict rule with the brightness
floor); the live-preview variant of the older snapshot
(`applyChromaPreviewPixelApp`, App.tsx lines 330-346) omits the floor for
`green`; under `none` every pixel is unchanged; and in all cases only the
alpha channel is modified — RGB is untouched. -/
theorem claim_C2_chroma_rules :
    ∀ p : Pixel,
      (∀ k, (applyChromaExportPixel k p).r = p.r ∧ (applyChromaExportPixel k p).g = p.g ∧
        (applyChromaExportPixel k p).b = p.b) ∧
      (applyChromaExportPixel .white p).a =
        (if p.r > 240 ∧ p.g > 240 ∧ p.b > 240 then 0 else p.a) ∧
      (applyChromaExportPixel .green p).a =
        (if p.g > 100 ∧ p.g - p.r > 40 ∧ p.g - p.b > 40 then 0 else p.a) ∧
      applyChromaExportPixel .keyNone p = p ∧
      (∀ k, (applyChromaPreviewPixelApp k p).r = p.r ∧
        (applyChromaPreviewPixelApp k p).g = p.g ∧ (applyChromaPreviewPixelApp k p).b = p.b) ∧
      (applyChromaPreviewPixelApp .green p).a =
        (if p.g - p.r > 40 ∧ p.g - p.b > 40 then 0 else p.a) ∧
      (∀ ps, applyChromaExport .keyNone ps = ps) := by
  intro p
  have hiffe : (p.g > 100 ∧ p.g > p.r + 40 ∧ p.g > p.b + 40) ↔
      (p.g > 100 ∧ p.g - p.r > 40 ∧ p.g - p.b > 40) := by omega
  have hiffp : (p.g > p.r + 40 ∧ p.g > p.b + 40) ↔
      (p.g - p.r > 40 ∧ p.g - p.b > 40) := by omega
  refine ⟨?_, ?_, ?_, rfl, ?_, ?_, ?_⟩
  · intro k
    cases k <;> refine ⟨?_, ?_, ?_⟩ <;> simp only [applyChromaExportPixel] <;> split <;> rfl
  · by_cases h : p.r > 240 ∧ p.g > 240 ∧ p.b > 240 <;> simp [applyChromaExportPixel, h]
  · by_cases h : p.g > 100 ∧ p.g > p.r + 40 ∧ p.g > p.b + 40
    · simp [applyChromaExportPixel, h, hiffe.mp h]
    · have h2 : ¬ (p.g > 100 ∧ p.g - p.r > 40 ∧ p.g - p.b > 40) := fun hh => h (hiffe.mpr hh)
      simp [applyChromaExportPixel, h, h2]
  · intro k
    cases k <;> refine ⟨?_, ?_, ?_⟩ <;> simp only [applyChromaPreviewPixelApp] <;> split <;> rfl
  · by_cases h : p.g > p.r + 40 ∧ p.g > p.b + 40
    · simp [applyChromaPreviewPixelApp, h, hiffp.mp h]
    · have h2 : ¬ (p.g - p.r > 40 ∧ p.g - p.b > 40) := fun hh => h (hiffp.mpr hh)
      simp [applyChromaPreviewPixelApp, h, h2]
  · intro ps
    simp only [applyChromaExport]
    have : applyChromaExportPixel .keyNone = fun q => q := rfl
    rw [this]
    exact List.map_id ps

/-- C4: A composition with no resolved foreground character layer, a
resolvable (truthy) background reference, identity background scale, zero
background offsets and the default 16:9 target aspect takes the fast path of
`createCompositeImage` (part_000 line 469): it returns the background
reference itself (`raw`, hence byte-identical) and never the re-encoded
(`encoded`) form. -/
theorem claim_C4_fast_path :
    ∀ (comp : Option CompositionState) (gBg gChar : Option String)
      (gScale gX gY : Option ℚ) (gChroma : Option ChromaKey)
      (gBgS gBgX gBgY : Option ℚ) (bgRef : String),
      truthyStr (resolveCharAsset comp gChar) = false →
      resolveBgAsset comp gBg = some bgRef → bgRef ≠ "" →
      resolveBgScale gBgS = 1 → resolveBgX comp gBgX = 0 → resolveBgY comp gBgY = 0 →
      createCompositeImage comp gBg gChar gScale gX gY gChroma gBgS gBgX gBgY .sixteenNine =
        .raw bgRef ∧
      urlOf (CompositeResult.raw bgRef) = bgRef ∧
      (∀ params, CompositeResult.raw bgRef ≠ .encoded params) := by
  intro comp gBg gChar gScale gX gY gChroma gBgS gBgX gBgY bgRef hchar hbg hbgt hscale hx hy
  refine ⟨?_, rfl, ?_⟩
  · exact createCompositeImage_raw comp gBg gChar gScale gX gY gChroma gBgS gBgX gBgY bgRef
      hchar hbg hbgt hscale hx hy
  · intro params h
    cases h

theorem claim_C4_fast_path_witness :
    createCompositeImage (some {}) (some "BGDATA") none none none none none none none none
        .sixteenNine = .raw "BGDATA" ∧
    urlOf (CompositeResult.raw "BGDATA") = "BGDATA" := by
  have h := claim_C4_fast_path (some {}) (some "BGDATA") none none none none none none none none
    "BGDATA" (by decide) (by decide) (by decide) (by decide) (by decide) (by decide)
  exact ⟨h.1, h.2.1⟩

/-- C10: When neither the cut composition nor the project global provides a
background asset, `createCompositeImage` returns `''` (the `empty` result,
part_000 line 470) without throwing — even when a character layer is set —
the seed-image regex then matches nothing, and the driver proceeds to submit
the request with no seed image and can complete normally. -/
theorem claim_C10_no_background :
    ∀ (env : Env) (i : DriverInput) (s : AppState) (cutId : String) (c0 : Cut) (e : ℕ),
      truthyStr (resolveBgAsset c0.composition env.global_image) = false →
      cutId ∉ s.locks → findCut s.cuts cutId = some c0 →
      i.cancelAfterComposite = false → env.isTestMode = false →
      i.submits = [{ cancelBefore := false, outcome := .accepted }] →
      i.initialDone = false →
      i.polls = [{ cancelBefore := false, elapsed := e, fetch := .ok true }] →
      ¬ e > MAX_POLL_TIME → i.videoUri.isSome → i.downloadOk = true →
      composeFor env c0 = .empty ∧
      urlOf (composeFor env c0) = "" ∧
      driverSeed (composeFor env c0) = none ∧
      (∀ c, (buildPayload env c (composeFor env c0)).seed = none) ∧
      (generateCutVideo env i s cutId).2 = .completed := by
  intro env i s cutId c0 e hbg hlock hfind hcancel htest hsub hdone hpolls he huri hdl
  have hempty : composeFor env c0 = .empty := by
    unfold composeFor
    exact createCompositeImage_empty _ _ _ _ _ _ _ _ _ _ _ hbg
  refine ⟨hempty, by rw [hempty]; rfl, by rw [hempty]; rfl, ?_, ?_⟩
  · intro c
    unfold buildPayload
    rw [hempty]
    rfl
  · have hfind2 : findCut ({ s with locks := insert cutId s.locks } : AppState).cuts cutId =
        some c0 := hfind
    rw [generateCutVideo_exit env i s cutId hlock,
      driverBody_nonTest env i _ cutId c0 hfind2 hcancel htest]
    have hstart := findCut_startAttempt { s with locks := insert cutId s.locks } cutId
      i.nowStart c0 hfind2
    have hstat : cutStatus (startAttempt { s with locks := insert cutId s.locks } cutId
        i.nowStart) cutId = some .generating := by
      unfold cutStatus
      rw [hstart]
      rfl
    rw [submitPhase_accept env i _ _ cutId _ hstat hsub]
    have hfind3 := findCut_updCut_eq
      (startAttempt { s with locks := insert cutId s.locks } cutId i.nowStart).cuts cutId
      (fun c => { c with statusMessage := some "🚀 Sending to Veo Cloud..." }) _
      (fun _ => rfl) hstart
    exact pollPhase_happy env i _ _ cutId _ _ e hfind3 hdone hpolls he huri hdl

theorem claim_C10_no_background_witness :
    composeFor {} { cut_id := "c1", composition := some {} } = .empty ∧
    (generateCutVideo {}
      { submits := [{ cancelBefore := false, outcome := .accepted }],
        polls := [{ cancelBefore := false, elapsed := 7, fetch := .ok true }],
        videoUri := some "uri", downloadOk := true }
      { cuts := [{ cut_id := "c1", composition := some {} }] } "c1").2 = .completed := by
  have h := claim_C10_no_background {}
    { submits := [{ cancelBefore := false, outcome := .accepted }],
      polls := [{ cancelBefore := false, elapsed := 7, fetch := .ok true }],
      videoUri := some "uri", downloadOk := true }
    { cuts := [{ cut_id := "c1", composition := some {} }] } "c1"
    { cut_id := "c1", composition := some {} } 7
    (by decide) (by decide) (by decide) (by decide) (by decide) (by decide) (by decide)
    (by decide) (by decide) (by decide) (by decide)
  exact ⟨h.1, h.2.2.2.2⟩

/-- C1: For every cut id, a `generateCutVideo` call while the lock registry
already holds that id returns immediately as a no-op (state unchanged,
`noOp` exit, not an error; part_000 line 552), and whenever the driver runs
and exits — completion, terminal error, cancellation, or the missing-cut
return — the `finally` clause (lines 727-729) has removed the lock entry
(`fuelOut` marks a still-running driver, which has not exited). -/
theorem claim_C1_lock_registry :
    ∀ (env : Env) (i : DriverInput) (s : AppState) (cutId : String),
      (cutId ∈ s.locks → generateCutVideo env i s cutId = (s, .noOp)) ∧
      (cutId ∉ s.locks → (generateCutVideo env i s cutId).2 ≠ .fuelOut →
        cutId ∉ (generateCutVideo env i s cutId).1.locks) := by
  intro env i s cutId
  constructor
  · intro h
    simp [generateCutVideo, h]
  · intro h hex
    rw [generateCutVideo_eq env i s cutId h] at hex ⊢
    by_cases hf : (driverBody env i { s with locks := insert cutId s.locks } cutId).2 = .fuelOut
    · rw [if_pos hf] at hex
      exact absurd hf hex
    · rw [if_neg hf]
      exact Finset.not_mem_erase cutId _

theorem claim_C1_lock_registry_witness :
    generateCutVideo {} {} { cuts := [{ cut_id := "c1" }], locks := {"c1"} } "c1" =
      ({ cuts := [{ cut_id := "c1" }], locks := {"c1"} }, .noOp) ∧
    "c1" ∉ (generateCutVideo {} { cancelAfterComposite := true }
      { cuts := [{ cut_id := "c1" }] } "c1").1.locks := by
  constructor
  · exact (claim_C1_lock_registry {} {}
      { cuts := [{ cut_id := "c1" }], locks := {"c1"} } "c1").1 (by decide)
  · exact (claim_C1_lock_registry {} { cancelAfterComposite := true }
      { cuts := [{ cut_id := "c1" }] } "c1").2 (by decide) (by decide)

/-- C3: The submission retry delay is `min(60000, 5000·1.5^n)` ms
(`submitDelay`, part_000 line 656); over retries 1..5 it is strictly
increasing (hence non-decreasing) and stays below the 60000 ms cap; a
retryable failure below the ceiling of 8 keeps the loop going, touching only
`statusMessage` (the cut stays `Generating`); the 8th retryable failure
terminates the job in `Error` carrying the distinguishable quota-exceeded
message (recognised by the catch clause through the substring
`"DAILY QUOTA"`). -/
theorem claim_C3_backoff :
    (∀ n ∈ Finset.Icc 1 5, submitDelay n = min 60000 (5000 * (3 / 2 : ℚ) ^ n) ∧
      submitDelay n ≤ 60000) ∧
    (∀ n ∈ Finset.Icc 1 4, submitDelay n < submitDelay (n + 1)) ∧
    (∀ (cutId : String) (s : AppState) (retries : ℕ) (rest : List SubmitStep),
      statusIsIdle (findCut s.cuts cutId) = false → retries + 1 < 8 →
      submitLoop cutId s retries ({ cancelBefore := false, outcome := .retryable } :: rest) =
        submitLoop cutId (setStatusMessage s cutId (waitMsg (submitDelay (retries + 1))))
          (retries + 1) rest ∧
      cutStatus (setStatusMessage s cutId (waitMsg (submitDelay (retries + 1)))) cutId =
        cutStatus s cutId) ∧
    (∀ (env : Env) (i : DriverInput) (s : AppState) (cutId : String) (c0 : Cut),
      cutId ∉ s.locks → findCut s.cuts cutId = some c0 →
      i.cancelAfterComposite = false → env.isTestMode = false →
      i.submits = List.replicate 8 { cancelBefore := false, outcome := .retryable } →
      (generateCutVideo env i s cutId).2 = .errored quotaMsg ∧
      cutStatus (generateCutVideo env i s cutId).1 cutId = some .error ∧
      cutError (generateCutVideo env i s cutId).1 cutId = some (some quotaMsg) ∧
      hasSubstr quotaMsg "DAILY QUOTA" = true) := by
  refine ⟨?_, ?_, ?_, ?_⟩
  · intro n hn
    exact ⟨rfl, min_le_left _ _⟩
  · intro n hn
    simp only [Finset.mem_Icc] at hn
    obtain ⟨h1, h2⟩ := hn
    interval_cases n <;> simp only [submitDelay] <;> norm_num [min_def]
  · intro cutId s retries rest hidle hceil
    exact ⟨submitLoop_retryable_step cutId s retries rest hidle hceil,
      cutStatus_setStatusMessage s cutId _⟩
  · intro env i s cutId c0 hlock hfind hcancel htest hsub
    have hfind2 : findCut ({ s with locks := insert cutId s.locks } : AppState).cuts cutId =
        some c0 := hfind
    have hbody := driverBody_nonTest env i { s with locks := insert cutId s.locks } cutId c0
      hfind2 hcancel htest
    have hstat : cutStatus (startAttempt { s with locks := insert cutId s.locks } cutId
        i.nowStart) cutId = some .generating := by
      unfold cutStatus
      rw [findCut_startAttempt _ _ _ _ hfind2]
      rfl
    obtain ⟨s4, hphase, hs4⟩ := submitPhase_quota env i _ (composeFor env c0) cutId _ hstat hsub
    have hr : driverBody env i { s with locks := insert cutId s.locks } cutId =
        (applyCatch s4 cutId quotaMsg, .errored quotaMsg) := by
      rw [hbody, hphase]
    have hexit : (generateCutVideo env i s cutId).2 = .errored quotaMsg := by
      rw [generateCutVideo_exit env i s cutId hlock, hr]
    obtain ⟨c4, hc4find, _⟩ := findCut_of_cutStatus s4 cutId .generating hs4
    obtain ⟨hcs, hce⟩ := applyCatch_obs s4 cutId quotaMsg c4 hc4find
    have hstate : (generateCutVideo env i s cutId).1 =
        { applyCatch s4 cutId quotaMsg with
            locks := (applyCatch s4 cutId quotaMsg).locks.erase cutId } := by
      rw [generateCutVideo_eq env i s cutId hlock, hr, if_neg (by simp)]
    refine ⟨hexit, ?_, ?_, by decide⟩
    · rw [hstate]
      exact hcs
    · rw [hstate]
      rw [catchMsg_quota] at hce
      exact hce

theorem claim_C3_backoff_witness :
    submitDelay 1 ≤ 60000 ∧ submitDelay 1 < submitDelay 2 ∧
    submitLoop "c1" { cuts := [{ cut_id := "c1", status := .generating }] } 0
        [{ cancelBefore := false, outcome := .retryable }] =
      submitLoop "c1" (setStatusMessage { cuts := [{ cut_id := "c1", status := .generating }] }
        "c1" (waitMsg (submitDelay 1))) 1 [] ∧
    (generateCutVideo {}
      { submits := List.replicate 8 { cancelBefore := false, outcome := .retryable } }
      { cuts := [{ cut_id := "c1" }] } "c1").2 = .errored quotaMsg := by
  refine ⟨(claim_C3_backoff.1 1 (by decide)).2, claim_C3_backoff.2.1 1 (by decide), ?_, ?_⟩
  · exact (claim_C3_backoff.2.2.1 "c1" { cuts := [{ cut_id := "c1", status := .generating }] }
      0 [] (by decide) (by decide)).1
  · exact (claim_C3_backoff.2.2.2 {}
      { submits := List.replicate 8 { cancelBefore := false, outcome := .retryable } }
      { cuts := [{ cut_id := "c1" }] } "c1" { cut_id := "c1" }
      (by decide) (by decide) (by decide) (by decide) (by decide)).1

/-- C6: A cut whose polling phase observes a wall-clock elapsed time above
the 5-minute `MAX_POLL_TIME` (part_000 lines 144 and 673-675) while the
operation is still not done terminates in `Error` carrying the
timeout-specific message, which is distinguishable from the generic
`'Gen Error'` fallback and from the quota message (the catch clause keys on
the `"DAILY QUOTA"` substring, which the timeout message does not contain). -/
theorem claim_C6_poll_timeout :
    ∀ (env : Env) (i : DriverInput) (s : AppState) (cutId : String) (c0 : Cut)
      (e : ℕ) (fet : PollFetch) (frest : List PollStep),
      cutId ∉ s.locks → findCut s.cuts cutId = some c0 →
      i.cancelAfterComposite = false → env.isTestMode = false →
      i.submits = [{ cancelBefore := false, outcome := .accepted }] →
      i.initialDone = false →
      i.polls = { cancelBefore := false, elapsed := e, fetch := fet } :: frest →
      e > MAX_POLL_TIME →
      (generateCutVideo env i s cutId).2 = .errored timeoutMsg ∧
      cutStatus (generateCutVideo env i s cutId).1 cutId = some .error ∧
      cutError (generateCutVideo env i s cutId).1 cutId = some (some timeoutMsg) ∧
      timeoutMsg ≠ "Gen Error" ∧ timeoutMsg ≠ quotaMsg ∧
      hasSubstr timeoutMsg "DAILY QUOTA" = false ∧ MAX_POLL_TIME = 300000 := by
  intro env i s cutId c0 e fet frest hlock hfind hcancel htest hsub hdone hpolls he
  have hfind2 : findCut ({ s with locks := insert cutId s.locks } : AppState).cuts cutId =
      some c0 := hfind
  have hbody := driverBody_nonTest env i { s with locks := insert cutId s.locks } cutId c0
    hfind2 hcancel htest
  have hstart := findCut_startAttempt { s with locks := insert cutId s.locks } cutId
    i.nowStart c0 hfind2
  have hstat : cutStatus (startAttempt { s with locks := insert cutId s.locks } cutId
      i.nowStart) cutId = some .generating := by
    unfold cutStatus
    rw [hstart]
    rfl
  have haccept := submitPhase_accept env i
    { c0 with status := .generating, error := none, progress := some 5,
              startTime := some i.nowStart,
              statusMessage := some "🎨 Compositing Assets..." }
    (composeFor env c0) cutId _ hstat hsub
  have hfind3 := findCut_updCut_eq
    (startAttempt { s with locks := insert cutId s.locks } cutId i.nowStart).cuts cutId
    (fun c => { c with statusMessage := some "🚀 Sending to Veo Cloud..." }) _
    (fun _ => rfl) hstart
  obtain ⟨s5, hpoll, hfind5⟩ := pollPhase_timeout env i
    { c0 with status := .generating, error := none, progress := some 5,
              startTime := some i.nowStart,
              statusMessage := some "🎨 Compositing Assets..." }
    (composeFor env c0) cutId
    (setStatusMessage (startAttempt { s with locks := insert cutId s.locks } cutId
      i.nowStart) cutId "🚀 Sending to Veo Cloud...")
    { c0 with status := .generating, error := none, progress := some 5,
              startTime := some i.nowStart,
              statusMessage := some "🚀 Sending to Veo Cloud..." }
    e frest fet hfind3 hdone hpolls he
  have hr : driverBody env i { s with locks := insert cutId s.locks } cutId =
      (applyCatch s5 cutId timeoutMsg, .errored timeoutMsg) := by
    rw [hbody, haccept, hpoll]
  obtain ⟨hcs, hce⟩ := applyCatch_obs s5 cutId timeoutMsg _ hfind5
  have hstate : (generateCutVideo env i s cutId).1 =
      { applyCatch s5 cutId timeoutMsg with
          locks := (applyCatch s5 cutId timeoutMsg).locks.erase cutId } := by
    rw [generateCutVideo_eq env i s cutId hlock, hr, if_neg (by simp)]
  refine ⟨?_, ?_, ?_, by decide, by decide, by decide, rfl⟩
  · rw [generateCutVideo_exit env i s cutId hlock, hr]
  · rw [hstate]
    exact hcs
  · rw [hstate]
    rw [catchMsg_timeout] at hce
    exact hce

theorem claim_C6_poll_timeout_witness :
    (generateCutVideo {}
      { submits := [{ cancelBefore := false, outcome := .accepted }],
        polls := [{ cancelBefore := false, elapsed := 300001, fetch := .ok false }] }
      { cuts := [{ cut_id := "c1" }] } "c1").2 = .errored timeoutMsg ∧
    timeoutMsg ≠ quotaMsg := by
  have h := claim_C6_poll_timeout {}
    { submits := [{ cancelBefore := false, outcome := .accepted }],
      polls := [{ cancelBefore := false, elapsed := 300001, fetch := .ok false }] }
    { cuts := [{ cut_id := "c1" }] } "c1" { cut_id := "c1" } 300001 (.ok false) []
    (by decide) (by decide) (by decide) (by decide) (by decide) (by decide) (by decide)
    (by decide)
  exact ⟨h.1, h.2.2.2.2.1⟩

/-- C5 (counterexample): cancelling a cut that is in `Polling` does NOT
leave it without an error message — the cancel handler (part_000 line 1023)
writes `error: 'Cancelled by user'` while setting the status to `Idle`. -/
theorem claim_C5_counterexample :
    cutError (cancelCut { cuts := [{ cut_id := "c1", status := .polling }] } "c1") "c1" =
      some (some "Cancelled by user") ∧
    cutStatus (cancelCut { cuts := [{ cut_id := "c1", status := .polling }] } "c1") "c1" =
      some .idle ∧
    some "Cancelled by user" ≠ (none : Option String) := by
  refine ⟨by decide, by decide, by decide⟩

/-- C5 (amended): cancelling a cut in `Polling` sets its status to `Idle`
with the error message `'Cancelled by user'` (not with no error message),
releases its lock, and the driver returns early with the `cancelled` exit —
not an error — at its next suspension point; a subsequent generate call on
the same cut starts a fresh attempt with `progress` reset to 5 and the
error cleared. -/
theorem claim_C5_cancellation_amended :
    ∀ (s : AppState) (cutId : String) (c0 : Cut),
      findCut s.cuts cutId = some c0 →
      (cutStatus (cancelCut s cutId) cutId = some .idle ∧
       cutError (cancelCut s cutId) cutId = some (some "Cancelled by user") ∧
       cutId ∉ (cancelCut s cutId).locks) ∧
      (∀ (env : Env) (i : DriverInput) (e : ℕ) (fet : PollFetch) (frest : List PollStep),
        cutId ∉ s.locks → i.cancelAfterComposite = false → env.isTestMode = false →
        i.submits = [{ cancelBefore := false, outcome := .accepted }] →
        i.initialDone = false →
        i.polls = { cancelBefore := true, elapsed := e, fetch := fet } :: frest →
        (generateCutVideo env i s cutId).2 = .cancelled ∧
        ∀ msg, (generateCutVideo env i s cutId).2 ≠ .errored msg) ∧
      (∀ (env : Env) (i : DriverInput),
        i.submits = [] → i.cancelAfterComposite = false → env.isTestMode = false →
        cutStatus (generateCutVideo env i (cancelCut s cutId) cutId).1 cutId =
          some .generating ∧
        cutProgressOf (generateCutVideo env i (cancelCut s cutId) cutId).1 cutId =
          some (some 5) ∧
        cutError (generateCutVideo env i (cancelCut s cutId) cutId).1 cutId = some none) := by
  intro s cutId c0 hfind
  refine ⟨cancelCut_obs s cutId c0 hfind, ?_, ?_⟩
  · intro env i e fet frest hlock hcancel htest hsub hdone hpolls
    have hfind2 : findCut ({ s with locks := insert cutId s.locks } : AppState).cuts cutId =
        some c0 := hfind
    have hbody := driverBody_nonTest env i { s with locks := insert cutId s.locks } cutId c0
      hfind2 hcancel htest
    have hstart := findCut_startAttempt { s with locks := insert cutId s.locks } cutId
      i.nowStart c0 hfind2
    have hstat : cutStatus (startAttempt { s with locks := insert cutId s.locks } cutId
        i.nowStart) cutId = some .generating := by
      unfold cutStatus
      rw [hstart]
      rfl
    have haccept := submitPhase_accept env i
      { c0 with status := .generating, error := none, progress := some 5,
                startTime := some i.nowStart,
                statusMessage := some "🎨 Compositing Assets..." }
      (composeFor env c0) cutId _ hstat hsub
    have hfind3 := findCut_updCut_eq
      (startAttempt { s with locks := insert cutId s.locks } cutId i.nowStart).cuts cutId
      (fun c => { c with statusMessage := some "🚀 Sending to Veo Cloud..." }) _
      (fun _ => rfl) hstart
    have hpoll := pollPhase_cancel env i
      { c0 with status := .generating, error := none, progress := some 5,
                startTime := some i.nowStart,
                statusMessage := some "🎨 Compositing Assets..." }
      (composeFor env c0) cutId
      (setStatusMessage (startAttempt { s with locks := insert cutId s.locks } cutId
        i.nowStart) cutId "🚀 Sending to Veo Cloud...")
      { c0 with status := .generating, error := none, progress := some 5,
                startTime := some i.nowStart,
                statusMessage := some "🚀 Sending to Veo Cloud..." }
      e fet frest hfind3 hdone hpolls
    have hexit : (generateCutVideo env i s cutId).2 = .cancelled := by
      rw [generateCutVideo_exit env i s cutId hlock, hbody, haccept]
      exact hpoll
    refine ⟨hexit, ?_⟩
    intro msg h
    rw [hexit] at h
    cases h
  · intro env i hsub hcancel htest
    have hlock2 : cutId ∉ (cancelCut s cutId).locks := Finset.not_mem_erase cutId _
    have hfindc : findCut (cancelCut s cutId).cuts cutId =
        some { c0 with status := .idle, error := some "Cancelled by user" } :=
      findCut_updCut_eq s.cuts cutId _ _ (fun _ => rfl) hfind
    have hfindc2 : findCut ({ (cancelCut s cutId) with
        locks := insert cutId (cancelCut s cutId).locks } : AppState).cuts cutId =
        some { c0 with status := .idle, error := some "Cancelled by user" } := hfindc
    have hbody := driverBody_nonTest env i
      { (cancelCut s cutId) with locks := insert cutId (cancelCut s cutId).locks } cutId _
      hfindc2 hcancel htest
    have hstart := findCut_startAttempt
      { (cancelCut s cutId) with locks := insert cutId (cancelCut s cutId).locks } cutId
      i.nowStart _ hfindc2
    have hfuel := submitPhase_fuel env i
      { { c0 with status := .idle, error := some "Cancelled by user" } with
          status := .generating, error := none, progress := some 5,
          startTime := some i.nowStart,
          statusMessage := some "🎨 Compositing Assets..." }
      (composeFor env { c0 with status := .idle, error := some "Cancelled by user" }) cutId
      (startAttempt { (cancelCut s cutId) with
        locks := insert cutId (cancelCut s cutId).locks } cutId i.nowStart) hsub
    have hr : driverBody env i
        { (cancelCut s cutId) with locks := insert cutId (cancelCut s cutId).locks } cutId =
        (setStatusMessage (startAttempt { (cancelCut s cutId) with
          locks := insert cutId (cancelCut s cutId).locks } cutId i.nowStart) cutId
          "🚀 Sending to Veo Cloud...", .fuelOut) := by
      rw [hbody, hfuel]
    have hstate : (generateCutVideo env i (cancelCut s cutId) cutId).1 =
        setStatusMessage (startAttempt { (cancelCut s cutId) with
          locks := insert cutId (cancelCut s cutId).locks } cutId i.nowStart) cutId
          "🚀 Sending to Veo Cloud..." := by
      rw [generateCutVideo_eq env i (cancelCut s cutId) cutId hlock2, hr, if_pos rfl]
    have hfind4 := findCut_updCut_eq
      (startAttempt { (cancelCut s cutId) with
        locks := insert cutId (cancelCut s cutId).locks } cutId i.nowStart).cuts cutId
      (fun c => { c with statusMessage := some "🚀 Sending to Veo Cloud..." }) _
      (fun _ => rfl) hstart
    refine ⟨?_, ?_, ?_⟩
    · rw [hstate]
      unfold cutStatus setStatusMessage
      rw [hfind4]
      rfl
    · rw [hstate]
      unfold cutProgressOf setStatusMessage
      rw [hfind4]
      rfl
    · rw [hstate]
      unfold cutError setStatusMessage
      rw [hfind4]
      rfl

theorem claim_C5_cancellation_amended_witness :
    cutStatus (cancelCut { cuts := [{ cut_id := "c1", status := .polling }] } "c1") "c1" =
      some .idle ∧
    (generateCutVideo {}
      { submits := [{ cancelBefore := false, outcome := .accepted }],
        polls := [{ cancelBefore := true, elapsed := 3, fetch := .ok false }] }
      { cuts := [{ cut_id := "c1", status := .polling }] } "c1").2 = .cancelled ∧
    cutProgressOf (generateCutVideo {} {}
      (cancelCut { cuts := [{ cut_id := "c1", status := .polling }] } "c1") "c1").1 "c1" =
      some (some 5) := by
  have h := claim_C5_cancellation_amended
    { cuts := [{ cut_id := "c1", status := .polling }] } "c1"
    { cut_id := "c1", status := .polling } (by decide)
  refine ⟨h.1.1, ?_, ?_⟩
  · exact (h.2.1 {}
      { submits := [{ cancelBefore := false, outcome := .accepted }],
        polls := [{ cancelBefore := true, elapsed := 3, fetch := .ok false }] }
      3 (.ok false) [] (by decide) (by decide) (by decide) (by decide) (by decide)
      (by decide)).1
  · exact (h.2.2 {} {} (by decide) (by decide) (by decide)).2.1

/-- C7: Auto-link — the extracted still frame is taken at seek position
`max(0, duration − 0.1)` (part_000 line 163); when a following cut exists,
`autoLinkApply` overwrites only that cut's `composition.background_asset`
(every other composition field of that cut, via `linkComposition`, and
every other cut are preserved); a frame-extraction failure is swallowed and
the originating job still completes with no other cut touched; and with
auto-link disabled no run of the driver ever touches any other cut. -/
theorem claim_C7_auto_link :
    (∀ v : VideoModel, v.loadOk = true → v.canvasOk = true →
      extractLastFrameFromVideo v = .ok (v.frameAt (max 0 (v.duration - 1 / 10)))) ∧
    (∀ (cuts : List Cut) (cutId frame : String) (k : ℕ),
      (cuts.map (fun c => c.cut_id)).Nodup →
      cuts.findIdx? (fun c => c.cut_id == cutId) = some k →
      ∀ h : k + 1 < cuts.length,
      (∀ j, j ≠ k + 1 → (autoLinkApply cuts cutId frame)[j]? = cuts[j]?) ∧
      (autoLinkApply cuts cutId frame)[k + 1]? =
        some { cuts.get ⟨k + 1, h⟩ with
          composition := some (linkComposition (cuts.get ⟨k + 1, h⟩) frame) } ∧
      linkComposition (cuts.get ⟨k + 1, h⟩) frame =
        { ((cuts.get ⟨k + 1, h⟩).composition.getD {}) with
            background_asset := some frame }) ∧
    (∀ (env : Env) (i : DriverInput) (s : AppState) (cutId : String) (c0 : Cut) (e : ℕ),
      env.isAutoLinkMode = true → env.isTestMode = false →
      (∃ err, extractLastFrameFromVideo i.video = .error err) →
      cutId ∉ s.locks → findCut s.cuts cutId = some c0 →
      i.cancelAfterComposite = false →
      i.submits = [{ cancelBefore := false, outcome := .accepted }] →
      i.initialDone = false →
      i.polls = [{ cancelBefore := false, elapsed := e, fetch := .ok true }] →
      ¬ e > MAX_POLL_TIME → i.videoUri.isSome → i.downloadOk = true →
      (generateCutVideo env i s cutId).2 = .completed ∧
      maskOthers cutId (generateCutVideo env i s cutId).1.cuts = maskOthers cutId s.cuts) ∧
    (∀ (env : Env) (i : DriverInput) (s : AppState) (cutId : String),
      env.isAutoLinkMode = false →
      maskOthers cutId (generateCutVideo env i s cutId).1.cuts =
        maskOthers cutId s.cuts) := by
  refine ⟨?_, ?_, ?_, ?_⟩
  · intro v hl hc
    unfold extractLastFrameFromVideo
    rw [hl, hc]
    rfl
  · intro cuts cutId frame k hno hidx h
    exact ⟨autoLinkApply_others cuts cutId frame k hno hidx h,
      autoLinkApply_next cuts cutId frame k hno hidx h, rfl⟩
  · intro env i s cutId c0 e hal htest hex hlock hfind hcancel hsub hdone hpolls he huri hdl
    constructor
    · have hfind2 : findCut ({ s with locks := insert cutId s.locks } : AppState).cuts cutId =
          some c0 := hfind
      rw [generateCutVideo_exit env i s cutId hlock,
        driverBody_nonTest env i _ cutId c0 hfind2 hcancel htest]
      have hstart := findCut_startAttempt { s with locks := insert cutId s.locks } cutId
        i.nowStart c0 hfind2
      have hstat : cutStatus (startAttempt { s with locks := insert cutId s.locks } cutId
          i.nowStart) cutId = some .generating := by
        unfold cutStatus
        rw [hstart]
        rfl
      rw [submitPhase_accept env i _ _ cutId _ hstat hsub]
      have hfind3 := findCut_updCut_eq
        (startAttempt { s with locks := insert cutId s.locks } cutId i.nowStart).cuts cutId
        (fun c => { c with statusMessage := some "🚀 Sending to Veo Cloud..." }) _
        (fun _ => rfl) hstart
      exact pollPhase_happy env i _ _ cutId _ _ e hfind3 hdone hpolls he huri hdl
    · exact maskOthers_generateCutVideo env i s cutId (Or.inr ⟨htest, hex⟩)
  · intro env i s cutId hal
    exact maskOthers_generateCutVideo env i s cutId (Or.inl hal)

theorem claim_C7_auto_link_witness :
    extractLastFrameFromVideo
      ({ loadOk := true, canvasOk := true, duration := 5, frameAt := fun _ => "LASTFRAME" }) =
        .ok "LASTFRAME" ∧
    (autoLinkApply [({ cut_id := "a" }),
        ({ cut_id := "b", composition := some ({ character_x := some (1 / 2) }) })]
        "a" "LASTFRAME")[1]? =
      some ({ cut_id := "b", composition := some ({ character_x := some (1 / 2), background_asset := some "LASTFRAME" }) }) ∧
    (generateCutVideo { isAutoLinkMode := true }
      { submits := [{ cancelBefore := false, outcome := .accepted }],
        polls := [{ cancelBefore := false, elapsed := 9, fetch := .ok true }],
        videoUri := some "uri", downloadOk := true, video := { loadOk := false } }
      { cuts := [{ cut_id := "a" }, { cut_id := "b" }] } "a").2 = .completed ∧
    maskOthers "a" (generateCutVideo {} {} { cuts := [{ cut_id := "a" }, { cut_id := "b" }] }
      "a").1.cuts = maskOthers "a" [{ cut_id := "a" }, { cut_id := "b" }] := by
  refine ⟨?_, ?_, ?_, ?_⟩
  · exact claim_C7_auto_link.1
      ({ loadOk := true, canvasOk := true, duration := 5, frameAt := fun _ => "LASTFRAME" })
      rfl rfl
  · have h := (claim_C7_auto_link.2.1 [({ cut_id := "a" }),
      ({ cut_id := "b", composition := some ({ character_x := some (1 / 2) }) })]
      "a" "LASTFRAME" 0 (by decide) (by decide) (by decide)).2.1
    exact h
  · exact (claim_C7_auto_link.2.2.1 { isAutoLinkMode := true }
      { submits := [{ cancelBefore := false, outcome := .accepted }],
        polls := [{ cancelBefore := false, elapsed := 9, fetch := .ok true }],
        videoUri := some "uri", downloadOk := true, video := { loadOk := false } }
      { cuts := [{ cut_id := "a" }, { cut_id := "b" }] } "a" { cut_id := "a" } 9
      rfl rfl ⟨"Video load error", rfl⟩ (by decide) (by decide) rfl rfl rfl rfl
      (by decide) (by decide) (by decide)).1
  · exact claim_C7_auto_link.2.2.2 {} {} { cuts := [{ cut_id := "a" }, { cut_id := "b" }] }
      "a" rfl

/-- C8: The batch scheduler runs with concurrency 1 exactly when auto-link
is enabled or the safe pacing mode is selected, and 2 otherwise (part_000
line 741); along every event trace of a batch started with no running cut,
the number of cuts simultaneously in a running status (Generating, Polling,
Downloading) never exceeds that bound; and a cut whose snapshot is already
`Completed` is skipped — counted as done immediately, no driver started, no
canonical state touched (lines 754-757). -/
theorem claim_C8_scheduler :
    (∀ (autoLink : Bool) (speed : BatchSpeed),
      ((autoLink = true ∨ speed = .safe) → concurrencyLimit autoLink speed = 1) ∧
      (autoLink = false → speed = .fast → concurrencyLimit autoLink speed = 2)) ∧
    (∀ (autoLink : Bool) (speed : BatchSpeed) (s0 : SchedState) (events : List BatchEvent),
      (s0.cuts.map (fun c => c.cut_id)).Nodup →
      s0.active = ∅ →
      (∀ c ∈ s0.cuts, runningStatus c.status = false) →
      runningCount (schedExec (concurrencyLimit autoLink speed) s0 events) ≤
        concurrencyLimit autoLink speed) ∧
    (∀ (cLimit : ℕ) (s : SchedState) (cut : Cut) (rest : List Cut),
      s.aborted = false → s.queue = cut :: rest → s.active.card < cLimit →
      cut.status = .completed →
      schedStep cLimit s .start =
        { s with queue := rest, completedCount := s.completedCount + 1 }) := by
  refine ⟨?_, ?_, ?_⟩
  · intro autoLink speed
    constructor
    · intro h
      rcases h with h | h
      · simp [concurrencyLimit, h]
      · simp [concurrencyLimit, h]
    · intro h1 h2
      simp [concurrencyLimit, h1, h2]
  · intro autoLink speed s0 events hno hact hrun
    have hinv0 : schedInv (concurrencyLimit autoLink speed) s0 := by
      constructor
      · rw [hact]
        simp
      · intro c hc hcr
        rw [hrun c hc] at hcr
        cases hcr
    have hinv := schedExec_inv (concurrencyLimit autoLink speed) events s0 hinv0
    have hno2 : ((schedExec (concurrencyLimit autoLink speed) s0 events).cuts.map
        (fun c => c.cut_id)).Nodup := by
      rw [schedExec_ids]
      exact hno
    exact le_trans (runningCount_le_card _ hno2 hinv.2) hinv.1
  · intro cLimit s cut rest hab hq hcap hcomp
    simp [schedStep, hab, hq, hcap, hcomp]

theorem claim_C8_scheduler_witness :
    concurrencyLimit true .fast = 1 ∧ concurrencyLimit false .safe = 1 ∧
    concurrencyLimit false .fast = 2 ∧
    runningCount (schedExec 2
      { queue := [{ cut_id := "a" }, { cut_id := "b" }, { cut_id := "c" },
          { cut_id := "d" }, { cut_id := "e" }],
        cuts := [{ cut_id := "a" }, { cut_id := "b" }, { cut_id := "c" },
          { cut_id := "d" }, { cut_id := "e" }] }
      [.start, .start, .start, .tick "a" .polling, .finish "a" .completed, .start]) ≤ 2 ∧
    schedStep 2
      { queue := [{ cut_id := "z", status := .completed }],
        cuts := [{ cut_id := "z", status := .completed }] } .start =
      { queue := [], cuts := [{ cut_id := "z", status := .completed }],
        completedCount := 1 } := by
  refine ⟨?_, ?_, ?_, ?_, ?_⟩
  · exact (claim_C8_scheduler.1 true .fast).1 (Or.inl rfl)
  · exact (claim_C8_scheduler.1 false .safe).1 (Or.inr rfl)
  · exact (claim_C8_scheduler.1 false .fast).2 rfl rfl
  · exact claim_C8_scheduler.2.1 false .fast
      { queue := [{ cut_id := "a" }, { cut_id := "b" }, { cut_id := "c" },
          { cut_id := "d" }, { cut_id := "e" }],
        cuts := [{ cut_id := "a" }, { cut_id := "b" }, { cut_id := "c" },
          { cut_id := "d" }, { cut_id := "e" }] }
      [.start, .start, .start, .tick "a" .polling, .finish "a" .completed, .start]
      (by decide) (by decide) (by decide)
  · exact claim_C8_scheduler.2.2 2
      { queue := [{ cut_id := "z", status := .completed }],
        cuts := [{ cut_id := "z", status := .completed }] }
      { cut_id := "z", status := .completed } [] (by decide) (by decide) (by decide)
      (by decide)

/-- C9 (counterexample): the field-level precedence rule fails at the live
chroma-key preview read site (part_000 line 386): for a cut whose
composition defines a character asset but leaves `chroma_key` undefined,
with the project global chroma key set to `green`, the preview resolves the
chroma key to `none` instead of falling back to the global `green`. -/
theorem claim_C9_counterexample :
    previewTargetChroma (some { character_asset := some "char.png" })
        (some ChromaKey.green) = ChromaKey.keyNone ∧
    ChromaKey.keyNone ≠ ChromaKey.green ∧
    resolveChroma (some { character_asset := some "char.png" })
        (some ChromaKey.green) = ChromaKey.green := by
  refine ⟨by decide, by decide, by decide⟩

/-- C9 (amended): at the seed-frame compositing read sites
(`createCompositeImage`, part_000 lines 457-467) an undefined per-cut
composition field resolves to the project-level global of the same kind and
a defined per-cut field (for asset references: defined and non-empty, as JS
`||` treats `''` as undefined) overrides the global, for background asset,
character asset, character scale, character x/y, background x/y and chroma
key; the live chroma-key preview, however, keys its chroma source off the
character-asset source: with a per-cut character asset it uses only the
per-cut chroma key (defaulting to `none`, ignoring the global), and with an
inherited character asset it uses only the global chroma key. -/
theorem claim_C9_precedence_amended :
    (∀ (comp : Option CompositionState) (gv q : ℚ),
      (comp.bind (fun c => c.character_scale)) = some q →
        resolveCharScale comp (some gv) = q) ∧
    (∀ (comp : Option CompositionState) (gv : ℚ),
      (comp.bind (fun c => c.character_scale)) = none →
        resolveCharScale comp (some gv) = gv) ∧
    (∀ (comp : Option CompositionState) (gv q : ℚ),
      (comp.bind (fun c => c.character_x)) = some q → resolveCharX comp (some gv) = q) ∧
    (∀ (comp : Option CompositionState) (gv : ℚ),
      (comp.bind (fun c => c.character_x)) = none → resolveCharX comp (some gv) = gv) ∧
    (∀ (comp : Option CompositionState) (gv q : ℚ),
      (comp.bind (fun c => c.character_y)) = some q → resolveCharY comp (some gv) = q) ∧
    (∀ (comp : Option CompositionState) (gv : ℚ),
      (comp.bind (fun c => c.character_y)) = none → resolveCharY comp (some gv) = gv) ∧
    (∀ (comp : Option CompositionState) (gv q : ℚ),
      (comp.bind (fun c => c.background_x)) = some q → resolveBgX comp (some gv) = q) ∧
    (∀ (comp : Option CompositionState) (gv : ℚ),
      (comp.bind (fun c => c.background_x)) = none → resolveBgX comp (some gv) = gv) ∧
    (∀ (comp : Option CompositionState) (gv q : ℚ),
      (comp.bind (fun c => c.background_y)) = some q → resolveBgY comp (some gv) = q) ∧
    (∀ (comp : Option CompositionState) (gv : ℚ),
      (comp.bind (fun c => c.background_y)) = none → resolveBgY comp (some gv) = gv) ∧
    (∀ (comp : Option CompositionState) (gv k : ChromaKey),
      (comp.bind (fun c => c.chroma_key)) = some k → resolveChroma comp (some gv) = k) ∧
    (∀ (comp : Option CompositionState) (gv : ChromaKey),
      (comp.bind (fun c => c.chroma_key)) = none → resolveChroma comp (some gv) = gv) ∧
    (∀ (comp : Option CompositionState) (gv : Option String) (a : String),
      (comp.bind (fun c => c.background_asset)) = some a → a ≠ "" →
        resolveBgAsset comp gv = some a) ∧
    (∀ (comp : Option CompositionState) (gv : Option String),
      (comp.bind (fun c => c.background_asset)) = none → resolveBgAsset comp gv = gv) ∧
    (∀ (comp : Option CompositionState) (gv : Option String) (a : String),
      (comp.bind (fun c => c.character_asset)) = some a → a ≠ "" →
        resolveCharAsset comp gv = some a) ∧
    (∀ (comp : Option CompositionState) (gv : Option String),
      (comp.bind (fun c => c.character_asset)) = none → resolveCharAsset comp gv = gv) ∧
    (∀ (comp : Option CompositionState) (gv : Option String),
      previewTargetChar comp gv = resolveCharAsset comp gv) ∧
    (∀ (comp : Option CompositionState) (gv : Option ChromaKey),
      truthyStr (comp.bind (fun c => c.character_asset)) = true →
        previewTargetChroma comp gv = (comp.bind (fun c => c.chroma_key)).getD .keyNone) ∧
    (∀ (comp : Option CompositionState) (gv : Option ChromaKey),
      truthyStr (comp.bind (fun c => c.character_asset)) = false →
        previewTargetChroma comp gv = gv.getD .keyNone) := by
  refine ⟨?_, ?_, ?_, ?_, ?_, ?_, ?_, ?_, ?_, ?_, ?_, ?_, ?_, ?_, ?_, ?_, ?_, ?_, ?_⟩
  · intro comp gv q h
    simp [resolveCharScale, qOr, h]
  · intro comp gv h
    simp [resolveCharScale, qOr, h]
  · intro comp gv q h
    simp [resolveCharX, qOr, h]
  · intro comp gv h
    simp [resolveCharX, qOr, h]
  · intro comp gv q h
    simp [resolveCharY, qOr, h]
  · intro comp gv h
    simp [resolveCharY, qOr, h]
  · intro comp gv q h
    simp [resolveBgX, qOr, h]
  · intro comp gv h
    simp [resolveBgX, qOr, h]
  · intro comp gv q h
    simp [resolveBgY, qOr, h]
  · intro comp gv h
    simp [resolveBgY, qOr, h]
  · intro comp gv k h
    simp [resolveChroma, h]
  · intro comp gv h
    simp [resolveChroma, h]
  · intro comp gv a h ha
    simp [resolveBgAsset, strOr, h, truthyStr, ha]
  · intro comp gv h
    simp [resolveBgAsset, strOr, h, truthyStr]
  · intro comp gv a h ha
    simp [resolveCharAsset, strOr, h, truthyStr, ha]
  · intro comp gv h
    simp [resolveCharAsset, strOr, h, truthyStr]
  · intro comp gv
    rfl
  · intro comp gv h
    simp [previewTargetChroma, h]
  · intro comp gv h
    simp [previewTargetChroma, h]

theorem claim_C9_precedence_amended_witness :
    resolveCharScale (some { character_scale := some 2 }) (some 1) = 2 ∧
    resolveCharScale (some {}) (some 1) = 1 ∧
    resolveChroma (some {}) (some ChromaKey.green) = ChromaKey.green ∧
    resolveBgAsset (some { background_asset := some "bg.png" }) (some "global.png") =
      some "bg.png" ∧
    previewTargetChroma (some { character_asset := some "c.png", chroma_key := some .green })
      (some ChromaKey.white) = ChromaKey.green := by
  refine ⟨?_, ?_, ?_, ?_, ?_⟩
  · exact claim_C9_precedence_amended.1 (some { character_scale := some 2 }) 1 2 rfl
  · exact claim_C9_precedence_amended.2.1 (some {}) 1 rfl
  · exact claim_C9_precedence_amended.2.2.2.2.2.2.2.2.2.2.2.1 (some {}) ChromaKey.green rfl
  · exact claim_C9_precedence_amended.2.2.2.2.2.2.2.2.2.2.2.2.1
      (some { background_asset := some "bg.png" }) (some "global.png") "bg.png" rfl
      (by decide)
  · exact claim_C9_precedence_amended.2.2.2.2.2.2.2.2.2.2.2.2.2.2.2.2.2.1
      (some { character_asset := some "c.png", chroma_key := some .green })
      (some ChromaKey.white) (by decide)

end VeoDirector
